import Mathlib

/-!
# A shallow embedding of `tinyvm.py` (TinyVM bytecode emulator)

This file embeds the TinyVM bytecode emulator in Lean 4 and proves
properties of it.  The embedding follows the Python source:

* memory is a Python `bytearray`, modelled as `List Nat` (each element a
  byte, `< 256` by construction of `bytearray`);
* registers are a Python list of 8 unbounded integers kept in `[0, 2^32)`
  by masking, modelled as `List Nat`;
* Python exceptions raised while stepping (IndexError from `mem[ip]`,
  struct.error from `unpack_from`) are modelled by a `Fault` value carried
  next to the partially mutated state, because Python mutates the object
  in place before the exception propagates;
* everything written by `print` is collected as a list of output lines.
  Wall-clock time (`time.time()`, the `elapsed=` field of the summary
  line) is not modelled; the summary line keeps its step and opcount
  fields.
-/

/-- Faults a `step` can raise: `indexError ip` models the Python
`IndexError` from `self.mem[self.ip]`, `structError ip` the
`struct.error` from `struct.unpack_from(">I", self.mem, self.ip)`. -/
inductive Fault where
  | indexError (ip : Nat)
  | structError (ip : Nat)
deriving DecidableEq

/-- One line written to stdout.  `out s` is a line printed by `step`
(PRINT_REG, DEBUG_STATE, or the unknown-opcode diagnostic), `crash f` the
"VM crashed: ..." line of `run`, and `summary steps opcount` the
"Stopped after ... steps, opcount=..., elapsed=..." line (elapsed time is
wall clock and not modelled). -/
inductive Line where
  | out (s : String)
  | crash (f : Fault)
  | summary (steps opcount : Nat)
deriving DecidableEq

def MEMORY_SIZE : Nat := 64 * 1024

def NUM_REGS : Nat := 8

/-- The VM state: the fields of the Python `TinyVM` object.
`start_time` is not modelled (wall clock). -/
structure TinyVM where
  mem : List Nat
  regs : List Nat
  ip : Nat
  running : Bool
  opcount : Nat
deriving DecidableEq

/-- `TinyVM.__init__(memsize)`. -/
def TinyVM.init (memsize : Nat) : TinyVM :=
  { mem := List.replicate memsize 0
    regs := List.replicate NUM_REGS 0
    ip := 0
    running := false
    opcount := 0 }

/-- `TinyVM.load(data, addr)`: Python executes
`self.mem[addr:addr+len(data)] = data; self.ip = addr`.  Slice assignment
on a `bytearray` replaces the clamped slice
`[min(addr,len), min(addr+len(data),len))` with `data`, resizing the
buffer when the lengths differ; it raises nothing for a non-negative
`addr`.  `List.take`/`List.drop` clamp exactly like Python slices do. -/
def TinyVM.load (vm : TinyVM) (data : List Nat) (addr : Nat) : TinyVM :=
  { vm with
    mem := vm.mem.take addr ++ data ++ vm.mem.drop (addr + data.length)
    ip := addr }

/-- `TinyVM.fetch_u8`: `v = self.mem[self.ip]` (IndexError when `ip` is
out of range, raised before `ip` is advanced), then `self.ip += 1`. -/
def TinyVM.fetch_u8 (vm : TinyVM) : Except Fault (Nat × TinyVM) :=
  match vm.mem.get? vm.ip with
  | some v => .ok (v, { vm with ip := vm.ip + 1 })
  | none => .error (.indexError vm.ip)

/-- `TinyVM.fetch_u32`: `struct.unpack_from(">I", self.mem, self.ip)`
(struct.error when fewer than 4 bytes remain, i.e. when
`ip + 4 > len(mem)`, raised before `ip` is advanced), then
`self.ip += 4`.  Big-endian.  The availability check is expressed as
"all four bytes exist", which for a list is equivalent to
`ip + 4 ≤ length` (`fetch_u32_ok_iff` below proves the equivalence). -/
def TinyVM.fetch_u32 (vm : TinyVM) : Except Fault (Nat × TinyVM) :=
  match vm.mem.get? vm.ip, vm.mem.get? (vm.ip + 1),
      vm.mem.get? (vm.ip + 2), vm.mem.get? (vm.ip + 3) with
  | some b0, some b1, some b2, some b3 =>
    .ok (b0 * 2 ^ 24 + b1 * 2 ^ 16 + b2 * 2 ^ 8 + b3, { vm with ip := vm.ip + 4 })
  | _, _, _, _ => .error (.structError vm.ip)

/-- One uppercase hexadecimal digit, for the Python format code X. -/
def hexDigit (n : Nat) : Char :=
  if n < 10 then Char.ofNat (48 + n) else Char.ofNat (55 + n)

/-- Python `f"\x7bopcode:02X\x7d"` for a byte value (`< 256`): exactly two
uppercase hexadecimal digits, zero-padded. -/
def hex2 (b : Nat) : String :=
  String.mk [hexDigit (b / 16 % 16), hexDigit (b % 16)]

/-- The line printed by the unknown-opcode branch of `step`:
`f"Unknown opcode 0x\x7bopcode:02X\x7d at \x7bself.ip-1\x7d"`. -/
def unknownLine (opcode ip_minus_one : Nat) : String :=
  "Unknown opcode 0x" ++ hex2 opcode ++ " at " ++ toString ip_minus_one

/-- The line printed by `TinyVM.debug_state`:
`f"IP=\x7bself.ip\x7d \x7bregs\x7d"` with `regs` the space-joined
`f"r\x7bi\x7d=\x7bself.regs[i]\x7d"` for `i` in `range(NUM_REGS)`. -/
def TinyVM.debug_state (vm : TinyVM) : String :=
  "IP=" ++ toString vm.ip ++ " " ++
    String.intercalate " "
      ((List.range NUM_REGS).map fun i =>
        "r" ++ toString i ++ "=" ++ toString (vm.regs.getD i 0))

/-- `TinyVM.step`: fetch one opcode byte, bump `opcount`, dispatch.
Returns the (possibly partially) mutated state, the lines printed, and
the fault raised, if any.  Register reads `self.regs[e % NUM_REGS]` are
modelled by `getD (e % NUM_REGS) 0` and writes by `List.set`; the index
is `< NUM_REGS = 8`, the length of `regs`, so both agree with Python list
indexing.  `addr % vm.mem.length` in the jump cases is Python
`addr % len(self.mem)`; the memory holds at least the 5 fetched bytes
there, so the modulus is never zero. -/
def TinyVM.step (vm : TinyVM) : TinyVM × List Line × Option Fault :=
  match vm.fetch_u8 with
  | .error f => (vm, [], some f)
  | .ok (opcode, vmA) =>
    let vm1 := { vmA with opcount := vmA.opcount + 1 }
    if opcode = 0x00 then (vm1, [], none)
    else if opcode = 0x01 then ({ vm1 with running := false }, [], none)
    else if opcode = 0x10 then
      match vm1.fetch_u8 with
      | .error f => (vm1, [], some f)
      | .ok (r, vm2) =>
        match vm2.fetch_u32 with
        | .error f => (vm2, [], some f)
        | .ok (imm, vm3) =>
          ({ vm3 with regs := vm3.regs.set (r % NUM_REGS) imm }, [], none)
    else if opcode = 0x11 then
      match vm1.fetch_u8 with
      | .error f => (vm1, [], some f)
      | .ok (dst, vm2) =>
        match vm2.fetch_u8 with
        | .error f => (vm2, [], some f)
        | .ok (src, vm3) =>
          ({ vm3 with
              regs := vm3.regs.set (dst % NUM_REGS)
                (vm3.regs.getD (src % NUM_REGS) 0) }, [], none)
    else if opcode = 0x20 then
      match vm1.fetch_u8 with
      | .error f => (vm1, [], some f)
      | .ok (dst, vm2) =>
        match vm2.fetch_u8 with
        | .error f => (vm2, [], some f)
        | .ok (src, vm3) =>
          ({ vm3 with
              regs := vm3.regs.set (dst % NUM_REGS)
                ((vm3.regs.getD (dst % NUM_REGS) 0 +
                  vm3.regs.getD (src % NUM_REGS) 0) % 2 ^ 32) }, [], none)
    else if opcode = 0x21 then
      match vm1.fetch_u8 with
      | .error f => (vm1, [], some f)
      | .ok (dst, vm2) =>
        match vm2.fetch_u8 with
        | .error f => (vm2, [], some f)
        | .ok (src, vm3) =>
          ({ vm3 with
              regs := vm3.regs.set (dst % NUM_REGS)
                (((vm3.regs.getD (dst % NUM_REGS) 0 : Int) -
                  (vm3.regs.getD (src % NUM_REGS) 0 : Int)) % 2 ^ 32).toNat },
            [], none)
    else if opcode = 0x30 then
      match vm1.fetch_u32 with
      | .error f => (vm1, [], some f)
      | .ok (addr, vm2) =>
        ({ vm2 with ip := addr % vm2.mem.length }, [], none)
    else if opcode = 0x31 then
      match vm1.fetch_u8 with
      | .error f => (vm1, [], some f)
      | .ok (r, vm2) =>
        match vm2.fetch_u32 with
        | .error f => (vm2, [], some f)
        | .ok (addr, vm3) =>
          if vm3.regs.getD (r % NUM_REGS) 0 = 0 then
            ({ vm3 with ip := addr % vm3.mem.length }, [], none)
          else (vm3, [], none)
    else if opcode = 0x40 then
      match vm1.fetch_u8 with
      | .error f => (vm1, [], some f)
      | .ok (r, vm2) =>
        (vm2, [Line.out (toString (vm2.regs.getD (r % NUM_REGS) 0))], none)
    else if opcode = 0xF0 then
      (vm1, [Line.out vm1.debug_state], none)
    else
      ({ vm1 with running := false },
        [Line.out (unknownLine opcode (vm1.ip - 1))], none)

/-- Result of the `while` loop inside `run`: the state after the loop,
the number of completed `steps += 1` increments, the lines printed, and
the exception that escaped the loop, if any. -/
structure LoopResult where
  vm : TinyVM
  steps : Nat
  lines : List Line
  fault : Option Fault
deriving DecidableEq

/-- The `while self.running and steps < max_steps` loop of `run`,
by recursion on the remaining budget `max_steps - steps`.  A step that
raises ends the loop before its `steps += 1`. -/
def TinyVM.runLoop : TinyVM → Nat → LoopResult
  | vm, 0 => ⟨vm, 0, [], none⟩
  | vm, budget + 1 =>
    if vm.running then
      match vm.step with
      | (vm1, lines, some f) => ⟨vm1, 0, lines, some f⟩
      | (vm1, lines, none) =>
        let r := TinyVM.runLoop vm1 budget
        ⟨r.vm, r.steps + 1, lines ++ r.lines, r.fault⟩
    else ⟨vm, 0, [], none⟩

/-- `TinyVM.run(max_steps)`: set `running = True`, run the loop, convert
an escaped exception into a "VM crashed" line plus `running = False`,
and always print the summary line. -/
def TinyVM.run (vm : TinyVM) (max_steps : Nat) : TinyVM × List Line :=
  let r := TinyVM.runLoop { vm with running := true } max_steps
  match r.fault with
  | some f =>
    ({ r.vm with running := false },
      r.lines ++ [Line.crash f, Line.summary r.steps r.vm.opcount])
  | none => (r.vm, r.lines ++ [Line.summary r.steps r.vm.opcount])

/-- Iterated `step`, following only the state component:
`stepIter vm k` is the state after `k` calls of `step`. -/
def stepIter (vm : TinyVM) : Nat → TinyVM
  | 0 => vm
  | k + 1 => stepIter vm.step.1 k

/-- `struct.pack(">I", n)` for `0 ≤ n < 2^32`: 4 big-endian bytes. -/
def packU32 (n : Nat) : List Nat :=
  [n / 2 ^ 24 % 256, n / 2 ^ 16 % 256, n / 2 ^ 8 % 256, n % 256]

/-- `bytearray.find(b)`: index of the first occurrence, `none` for
the Python return value -1. -/
def findByte (b : Nat) : List Nat → Option Nat
  | [] => none
  | x :: xs => if x = b then some 0 else (findByte b xs).map (· + 1)

/-- `struct.pack_into(">I", prog, off, n)`: overwrite the 4 bytes at
`off` with the big-endian encoding of `n`.  Python raises when fewer
than 4 bytes remain; the single call site is in range, and the model
returns the buffer unchanged in that case. -/
def packIntoU32 (l : List Nat) (off : Nat) (n : Nat) : List Nat :=
  if off + 4 ≤ l.length then l.take off ++ packU32 n ++ l.drop (off + 4)
  else l

/-- `demo_program()`: the second (kept) construction in the Python
source, followed by the find-and-patch of the JZ target. -/
def demo_program : List Nat :=
  let parts1 := [0x10, 0x00] ++ packU32 0 ++ ([0x10, 0x01] ++ packU32 10)
  let loop_addr := parts1.length
  let parts := parts1 ++ [0x40, 0x00] ++ ([0x10, 0x02] ++ packU32 1)
    ++ [0x20, 0x00, 0x02] ++ [0x11, 0x03, 0x00] ++ [0x21, 0x03, 0x01]
    ++ ([0x31, 0x03] ++ packU32 0) ++ ([0x30] ++ packU32 loop_addr)
  let end_addr := parts.length
  let prog := parts ++ [0x01]
  match findByte 0x31 prog with
  | some idx => packIntoU32 prog (idx + 2) end_addr
  | none => prog

/-- `main()` without the final `run`: `vm = TinyVM(); vm.load(prog, 0)`
with the demo program. -/
def demoVM : TinyVM :=
  (TinyVM.init MEMORY_SIZE).load demo_program 0

/-- The byte sequence `demo_program()` evaluates to (41 bytes, with the JZ
target patched to 40 and the JMP target 12); `demo_program_eq` below proves
the equality against `demo_program`. -/
def demoBytes : List Nat := [16,0,0,0,0,0,16,1,0,0,0,10,64,0,16,2,0,0,0,1,32,0,2,17,3,0,33,3,1,49,3,0,0,0,40,48,0,0,0,12,1]

/-- The memory image of `demoVM`: the demo program followed by zeros up to
`MEMORY_SIZE` (65536) bytes; `demoVM_eq` below proves it. -/
def demoMem : List Nat := demoBytes ++ List.replicate 65495 0


theorem demoMem_def : demoMem = demoBytes ++ List.replicate 65495 0 := rfl

theorem demo_program_eq : demo_program = demoBytes := by decide

theorem demoBytes_length : demoBytes.length = 41 := by decide

theorem demoMem_length : demoMem.length = 65536 := by
  rw [demoMem_def, List.length_append, demoBytes_length, List.length_replicate]

theorem replicate_drop : ∀ (m n : Nat), (List.replicate n (0:Nat)).drop m = List.replicate (n - m) 0 := by
  intro m
  induction m with
  | zero => intro n; simp
  | succ k ih =>
    intro n
    cases n with
    | zero => simp
    | succ n' => simp [List.replicate_succ, ih n']

theorem demoVM_eq : demoVM = ⟨demoMem, [0,0,0,0,0,0,0,0], 0, false, 0⟩ := by
  show TinyVM.load (TinyVM.init MEMORY_SIZE) demo_program 0 = _
  rw [TinyVM.load, TinyVM.init, demo_program_eq]
  show (⟨(List.replicate MEMORY_SIZE 0).take 0 ++ demoBytes ++ (List.replicate MEMORY_SIZE 0).drop (0 + demoBytes.length), List.replicate NUM_REGS 0, 0, false, 0⟩ : TinyVM) = _
  rw [List.take_zero, replicate_drop, demoBytes_length]
  norm_num [MEMORY_SIZE, NUM_REGS, demoMem_def]
  decide

theorem runLoop_pos (vm : TinyVM) (b : Nat) (hb : b ≠ 0) :
    TinyVM.runLoop vm b =
      if vm.running then
        match vm.step with
        | (vm1, lines, some f) => ⟨vm1, 0, lines, some f⟩
        | (vm1, lines, none) =>
          let r := TinyVM.runLoop vm1 (b - 1)
          ⟨r.vm, r.steps + 1, lines ++ r.lines, r.fault⟩
      else ⟨vm, 0, [], none⟩ := by
  cases b with
  | zero => exact absurd rfl hb
  | succ k => rfl

theorem demoMem_q0 : demoMem[0]? = some 16 := by
  rw [demoMem_def, List.getElem?_append_left (by rw [demoBytes_length]; norm_num)]; decide

theorem demoMem_q1 : demoMem[1]? = some 0 := by
  rw [demoMem_def, List.getElem?_append_left (by rw [demoBytes_length]; norm_num)]; decide

theorem demoMem_q2 : demoMem[2]? = some 0 := by
  rw [demoMem_def, List.getElem?_append_left (by rw [demoBytes_length]; norm_num)]; decide

theorem demoMem_q3 : demoMem[3]? = some 0 := by
  rw [demoMem_def, List.getElem?_append_left (by rw [demoBytes_length]; norm_num)]; decide

theorem demoMem_q4 : demoMem[4]? = some 0 := by
  rw [demoMem_def, List.getElem?_append_left (by rw [demoBytes_length]; norm_num)]; decide

theorem demoMem_q5 : demoMem[5]? = some 0 := by
  rw [demoMem_def, List.getElem?_append_left (by rw [demoBytes_length]; norm_num)]; decide

theorem demoMem_q6 : demoMem[6]? = some 16 := by
  rw [demoMem_def, List.getElem?_append_left (by rw [demoBytes_length]; norm_num)]; decide

theorem demoMem_q7 : demoMem[7]? = some 1 := by
  rw [demoMem_def, List.getElem?_append_left (by rw [demoBytes_length]; norm_num)]; decide

theorem demoMem_q8 : demoMem[8]? = some 0 := by
  rw [demoMem_def, List.getElem?_append_left (by rw [demoBytes_length]; norm_num)]; decide

theorem demoMem_q9 : demoMem[9]? = some 0 := by
  rw [demoMem_def, List.getElem?_append_left (by rw [demoBytes_length]; norm_num)]; decide

theorem demoMem_q10 : demoMem[10]? = some 0 := by
  rw [demoMem_def, List.getElem?_append_left (by rw [demoBytes_length]; norm_num)]; decide

theorem demoMem_q11 : demoMem[11]? = some 10 := by
  rw [demoMem_def, List.getElem?_append_left (by rw [demoBytes_length]; norm_num)]; decide

theorem demoMem_q12 : demoMem[12]? = some 64 := by
  rw [demoMem_def, List.getElem?_append_left (by rw [demoBytes_length]; norm_num)]; decide

theorem demoMem_q13 : demoMem[13]? = some 0 := by
  rw [demoMem_def, List.getElem?_append_left (by rw [demoBytes_length]; norm_num)]; decide

theorem demoMem_q14 : demoMem[14]? = some 16 := by
  rw [demoMem_def, List.getElem?_append_left (by rw [demoBytes_length]; norm_num)]; decide

theorem demoMem_q15 : demoMem[15]? = some 2 := by
  rw [demoMem_def, List.getElem?_append_left (by rw [demoBytes_length]; norm_num)]; decide

theorem demoMem_q16 : demoMem[16]? = some 0 := by
  rw [demoMem_def, List.getElem?_append_left (by rw [demoBytes_length]; norm_num)]; decide

theorem demoMem_q17 : demoMem[17]? = some 0 := by
  rw [demoMem_def, List.getElem?_append_left (by rw [demoBytes_length]; norm_num)]; decide

theorem demoMem_q18 : demoMem[18]? = some 0 := by
  rw [demoMem_def, List.getElem?_append_left (by rw [demoBytes_length]; norm_num)]; decide

theorem demoMem_q19 : demoMem[19]? = some 1 := by
  rw [demoMem_def, List.getElem?_append_left (by rw [demoBytes_length]; norm_num)]; decide

theorem demoMem_q20 : demoMem[20]? = some 32 := by
  rw [demoMem_def, List.getElem?_append_left (by rw [demoBytes_length]; norm_num)]; decide

theorem demoMem_q21 : demoMem[21]? = some 0 := by
  rw [demoMem_def, List.getElem?_append_left (by rw [demoBytes_length]; norm_num)]; decide

theorem demoMem_q22 : demoMem[22]? = some 2 := by
  rw [demoMem_def, List.getElem?_append_left (by rw [demoBytes_length]; norm_num)]; decide

theorem demoMem_q23 : demoMem[23]? = some 17 := by
  rw [demoMem_def, List.getElem?_append_left (by rw [demoBytes_length]; norm_num)]; decide

theorem demoMem_q24 : demoMem[24]? = some 3 := by
  rw [demoMem_def, List.getElem?_append_left (by rw [demoBytes_length]; norm_num)]; decide

theorem demoMem_q25 : demoMem[25]? = some 0 := by
  rw [demoMem_def, List.getElem?_append_left (by rw [demoBytes_length]; norm_num)]; decide

theorem demoMem_q26 : demoMem[26]? = some 33 := by
  rw [demoMem_def, List.getElem?_append_left (by rw [demoBytes_length]; norm_num)]; decide

theorem demoMem_q27 : demoMem[27]? = some 3 := by
  rw [demoMem_def, List.getElem?_append_left (by rw [demoBytes_length]; norm_num)]; decide

theorem demoMem_q28 : demoMem[28]? = some 1 := by
  rw [demoMem_def, List.getElem?_append_left (by rw [demoBytes_length]; norm_num)]; decide

theorem demoMem_q29 : demoMem[29]? = some 49 := by
  rw [demoMem_def, List.getElem?_append_left (by rw [demoBytes_length]; norm_num)]; decide

theorem demoMem_q30 : demoMem[30]? = some 3 := by
  rw [demoMem_def, List.getElem?_append_left (by rw [demoBytes_length]; norm_num)]; decide

theorem demoMem_q31 : demoMem[31]? = some 0 := by
  rw [demoMem_def, List.getElem?_append_left (by rw [demoBytes_length]; norm_num)]; decide

theorem demoMem_q32 : demoMem[32]? = some 0 := by
  rw [demoMem_def, List.getElem?_append_left (by rw [demoBytes_length]; norm_num)]; decide

theorem demoMem_q33 : demoMem[33]? = some 0 := by
  rw [demoMem_def, List.getElem?_append_left (by rw [demoBytes_length]; norm_num)]; decide

theorem demoMem_q34 : demoMem[34]? = some 40 := by
  rw [demoMem_def, List.getElem?_append_left (by rw [demoBytes_length]; norm_num)]; decide

theorem demoMem_q35 : demoMem[35]? = some 48 := by
  rw [demoMem_def, List.getElem?_append_left (by rw [demoBytes_length]; norm_num)]; decide

theorem demoMem_q36 : demoMem[36]? = some 0 := by
  rw [demoMem_def, List.getElem?_append_left (by rw [demoBytes_length]; norm_num)]; decide

theorem demoMem_q37 : demoMem[37]? = some 0 := by
  rw [demoMem_def, List.getElem?_append_left (by rw [demoBytes_length]; norm_num)]; decide

theorem demoMem_q38 : demoMem[38]? = some 0 := by
  rw [demoMem_def, List.getElem?_append_left (by rw [demoBytes_length]; norm_num)]; decide

theorem demoMem_q39 : demoMem[39]? = some 12 := by
  rw [demoMem_def, List.getElem?_append_left (by rw [demoBytes_length]; norm_num)]; decide

theorem demoMem_q40 : demoMem[40]? = some 1 := by
  rw [demoMem_def, List.getElem?_append_left (by rw [demoBytes_length]; norm_num)]; decide







theorem demoMod12 : 12 % demoMem.length = 12 := by rw [demoMem_length]

theorem demoMod40 : 40 % demoMem.length = 40 := by rw [demoMem_length]

theorem natStr0 : toString (0:Nat) = "0" := by decide

theorem natStr1 : toString (1:Nat) = "1" := by decide

theorem natStr2 : toString (2:Nat) = "2" := by decide

theorem natStr3 : toString (3:Nat) = "3" := by decide

theorem natStr4 : toString (4:Nat) = "4" := by decide

theorem natStr5 : toString (5:Nat) = "5" := by decide

theorem natStr6 : toString (6:Nat) = "6" := by decide

theorem natStr7 : toString (7:Nat) = "7" := by decide

theorem natStr8 : toString (8:Nat) = "8" := by decide

theorem natStr9 : toString (9:Nat) = "9" := by decide

theorem demo_step0 : TinyVM.step ⟨demoMem, [0,0,0,0,0,0,0,0], 0, true, 0⟩ = (⟨demoMem, [0,0,0,0,0,0,0,0], 6, true, 1⟩, [], none) := by
  simp [TinyVM.step, TinyVM.fetch_u8, TinyVM.fetch_u32, NUM_REGS, demoMod12, demoMod40, demoMem_q0, demoMem_q1, demoMem_q2, demoMem_q3, demoMem_q4, demoMem_q5, demoMem_q6, demoMem_q7, demoMem_q8, demoMem_q9, demoMem_q10, demoMem_q11, demoMem_q12, demoMem_q13, demoMem_q14, demoMem_q15, demoMem_q16, demoMem_q17, demoMem_q18, demoMem_q19, demoMem_q20, demoMem_q21, demoMem_q22, demoMem_q23, demoMem_q24, demoMem_q25, demoMem_q26, demoMem_q27, demoMem_q28, demoMem_q29, demoMem_q30, demoMem_q31, demoMem_q32, demoMem_q33, demoMem_q34, demoMem_q35, demoMem_q36, demoMem_q37, demoMem_q38, demoMem_q39, demoMem_q40]

theorem demo_step1 : TinyVM.step ⟨demoMem, [0,0,0,0,0,0,0,0], 6, true, 1⟩ = (⟨demoMem, [0,10,0,0,0,0,0,0], 12, true, 2⟩, [], none) := by
  simp [TinyVM.step, TinyVM.fetch_u8, TinyVM.fetch_u32, NUM_REGS, demoMod12, demoMod40, demoMem_q0, demoMem_q1, demoMem_q2, demoMem_q3, demoMem_q4, demoMem_q5, demoMem_q6, demoMem_q7, demoMem_q8, demoMem_q9, demoMem_q10, demoMem_q11, demoMem_q12, demoMem_q13, demoMem_q14, demoMem_q15, demoMem_q16, demoMem_q17, demoMem_q18, demoMem_q19, demoMem_q20, demoMem_q21, demoMem_q22, demoMem_q23, demoMem_q24, demoMem_q25, demoMem_q26, demoMem_q27, demoMem_q28, demoMem_q29, demoMem_q30, demoMem_q31, demoMem_q32, demoMem_q33, demoMem_q34, demoMem_q35, demoMem_q36, demoMem_q37, demoMem_q38, demoMem_q39, demoMem_q40]

theorem demo_step2 : TinyVM.step ⟨demoMem, [0,10,0,0,0,0,0,0], 12, true, 2⟩ = (⟨demoMem, [0,10,0,0,0,0,0,0], 14, true, 3⟩, [Line.out "0"], none) := by
  simp [TinyVM.step, TinyVM.fetch_u8, TinyVM.fetch_u32, NUM_REGS, demoMod12, demoMod40, demoMem_q0, demoMem_q1, demoMem_q2, demoMem_q3, demoMem_q4, demoMem_q5, demoMem_q6, demoMem_q7, demoMem_q8, demoMem_q9, demoMem_q10, demoMem_q11, demoMem_q12, demoMem_q13, demoMem_q14, demoMem_q15, demoMem_q16, demoMem_q17, demoMem_q18, demoMem_q19, demoMem_q20, demoMem_q21, demoMem_q22, demoMem_q23, demoMem_q24, demoMem_q25, demoMem_q26, demoMem_q27, demoMem_q28, demoMem_q29, demoMem_q30, demoMem_q31, demoMem_q32, demoMem_q33, demoMem_q34, demoMem_q35, demoMem_q36, demoMem_q37, demoMem_q38, demoMem_q39, demoMem_q40, natStr0]

theorem demo_step3 : TinyVM.step ⟨demoMem, [0,10,0,0,0,0,0,0], 14, true, 3⟩ = (⟨demoMem, [0,10,1,0,0,0,0,0], 20, true, 4⟩, [], none) := by
  simp [TinyVM.step, TinyVM.fetch_u8, TinyVM.fetch_u32, NUM_REGS, demoMod12, demoMod40, demoMem_q0, demoMem_q1, demoMem_q2, demoMem_q3, demoMem_q4, demoMem_q5, demoMem_q6, demoMem_q7, demoMem_q8, demoMem_q9, demoMem_q10, demoMem_q11, demoMem_q12, demoMem_q13, demoMem_q14, demoMem_q15, demoMem_q16, demoMem_q17, demoMem_q18, demoMem_q19, demoMem_q20, demoMem_q21, demoMem_q22, demoMem_q23, demoMem_q24, demoMem_q25, demoMem_q26, demoMem_q27, demoMem_q28, demoMem_q29, demoMem_q30, demoMem_q31, demoMem_q32, demoMem_q33, demoMem_q34, demoMem_q35, demoMem_q36, demoMem_q37, demoMem_q38, demoMem_q39, demoMem_q40]

theorem demo_step4 : TinyVM.step ⟨demoMem, [0,10,1,0,0,0,0,0], 20, true, 4⟩ = (⟨demoMem, [1,10,1,0,0,0,0,0], 23, true, 5⟩, [], none) := by
  simp [TinyVM.step, TinyVM.fetch_u8, TinyVM.fetch_u32, NUM_REGS, demoMod12, demoMod40, demoMem_q0, demoMem_q1, demoMem_q2, demoMem_q3, demoMem_q4, demoMem_q5, demoMem_q6, demoMem_q7, demoMem_q8, demoMem_q9, demoMem_q10, demoMem_q11, demoMem_q12, demoMem_q13, demoMem_q14, demoMem_q15, demoMem_q16, demoMem_q17, demoMem_q18, demoMem_q19, demoMem_q20, demoMem_q21, demoMem_q22, demoMem_q23, demoMem_q24, demoMem_q25, demoMem_q26, demoMem_q27, demoMem_q28, demoMem_q29, demoMem_q30, demoMem_q31, demoMem_q32, demoMem_q33, demoMem_q34, demoMem_q35, demoMem_q36, demoMem_q37, demoMem_q38, demoMem_q39, demoMem_q40]

theorem demo_step5 : TinyVM.step ⟨demoMem, [1,10,1,0,0,0,0,0], 23, true, 5⟩ = (⟨demoMem, [1,10,1,1,0,0,0,0], 26, true, 6⟩, [], none) := by
  simp [TinyVM.step, TinyVM.fetch_u8, TinyVM.fetch_u32, NUM_REGS, demoMod12, demoMod40, demoMem_q0, demoMem_q1, demoMem_q2, demoMem_q3, demoMem_q4, demoMem_q5, demoMem_q6, demoMem_q7, demoMem_q8, demoMem_q9, demoMem_q10, demoMem_q11, demoMem_q12, demoMem_q13, demoMem_q14, demoMem_q15, demoMem_q16, demoMem_q17, demoMem_q18, demoMem_q19, demoMem_q20, demoMem_q21, demoMem_q22, demoMem_q23, demoMem_q24, demoMem_q25, demoMem_q26, demoMem_q27, demoMem_q28, demoMem_q29, demoMem_q30, demoMem_q31, demoMem_q32, demoMem_q33, demoMem_q34, demoMem_q35, demoMem_q36, demoMem_q37, demoMem_q38, demoMem_q39, demoMem_q40]

theorem demo_step6 : TinyVM.step ⟨demoMem, [1,10,1,1,0,0,0,0], 26, true, 6⟩ = (⟨demoMem, [1,10,1,4294967287,0,0,0,0], 29, true, 7⟩, [], none) := by
  simp [TinyVM.step, TinyVM.fetch_u8, TinyVM.fetch_u32, NUM_REGS, demoMod12, demoMod40, demoMem_q0, demoMem_q1, demoMem_q2, demoMem_q3, demoMem_q4, demoMem_q5, demoMem_q6, demoMem_q7, demoMem_q8, demoMem_q9, demoMem_q10, demoMem_q11, demoMem_q12, demoMem_q13, demoMem_q14, demoMem_q15, demoMem_q16, demoMem_q17, demoMem_q18, demoMem_q19, demoMem_q20, demoMem_q21, demoMem_q22, demoMem_q23, demoMem_q24, demoMem_q25, demoMem_q26, demoMem_q27, demoMem_q28, demoMem_q29, demoMem_q30, demoMem_q31, demoMem_q32, demoMem_q33, demoMem_q34, demoMem_q35, demoMem_q36, demoMem_q37, demoMem_q38, demoMem_q39, demoMem_q40]

theorem demo_step7 : TinyVM.step ⟨demoMem, [1,10,1,4294967287,0,0,0,0], 29, true, 7⟩ = (⟨demoMem, [1,10,1,4294967287,0,0,0,0], 35, true, 8⟩, [], none) := by
  simp [TinyVM.step, TinyVM.fetch_u8, TinyVM.fetch_u32, NUM_REGS, demoMod12, demoMod40, demoMem_q0, demoMem_q1, demoMem_q2, demoMem_q3, demoMem_q4, demoMem_q5, demoMem_q6, demoMem_q7, demoMem_q8, demoMem_q9, demoMem_q10, demoMem_q11, demoMem_q12, demoMem_q13, demoMem_q14, demoMem_q15, demoMem_q16, demoMem_q17, demoMem_q18, demoMem_q19, demoMem_q20, demoMem_q21, demoMem_q22, demoMem_q23, demoMem_q24, demoMem_q25, demoMem_q26, demoMem_q27, demoMem_q28, demoMem_q29, demoMem_q30, demoMem_q31, demoMem_q32, demoMem_q33, demoMem_q34, demoMem_q35, demoMem_q36, demoMem_q37, demoMem_q38, demoMem_q39, demoMem_q40]

theorem demo_step8 : TinyVM.step ⟨demoMem, [1,10,1,4294967287,0,0,0,0], 35, true, 8⟩ = (⟨demoMem, [1,10,1,4294967287,0,0,0,0], 12, true, 9⟩, [], none) := by
  simp [TinyVM.step, TinyVM.fetch_u8, TinyVM.fetch_u32, NUM_REGS, demoMod12, demoMod40, demoMem_q0, demoMem_q1, demoMem_q2, demoMem_q3, demoMem_q4, demoMem_q5, demoMem_q6, demoMem_q7, demoMem_q8, demoMem_q9, demoMem_q10, demoMem_q11, demoMem_q12, demoMem_q13, demoMem_q14, demoMem_q15, demoMem_q16, demoMem_q17, demoMem_q18, demoMem_q19, demoMem_q20, demoMem_q21, demoMem_q22, demoMem_q23, demoMem_q24, demoMem_q25, demoMem_q26, demoMem_q27, demoMem_q28, demoMem_q29, demoMem_q30, demoMem_q31, demoMem_q32, demoMem_q33, demoMem_q34, demoMem_q35, demoMem_q36, demoMem_q37, demoMem_q38, demoMem_q39, demoMem_q40]

theorem demo_step9 : TinyVM.step ⟨demoMem, [1,10,1,4294967287,0,0,0,0], 12, true, 9⟩ = (⟨demoMem, [1,10,1,4294967287,0,0,0,0], 14, true, 10⟩, [Line.out "1"], none) := by
  simp [TinyVM.step, TinyVM.fetch_u8, TinyVM.fetch_u32, NUM_REGS, demoMod12, demoMod40, demoMem_q0, demoMem_q1, demoMem_q2, demoMem_q3, demoMem_q4, demoMem_q5, demoMem_q6, demoMem_q7, demoMem_q8, demoMem_q9, demoMem_q10, demoMem_q11, demoMem_q12, demoMem_q13, demoMem_q14, demoMem_q15, demoMem_q16, demoMem_q17, demoMem_q18, demoMem_q19, demoMem_q20, demoMem_q21, demoMem_q22, demoMem_q23, demoMem_q24, demoMem_q25, demoMem_q26, demoMem_q27, demoMem_q28, demoMem_q29, demoMem_q30, demoMem_q31, demoMem_q32, demoMem_q33, demoMem_q34, demoMem_q35, demoMem_q36, demoMem_q37, demoMem_q38, demoMem_q39, demoMem_q40, natStr1]

theorem demo_step10 : TinyVM.step ⟨demoMem, [1,10,1,4294967287,0,0,0,0], 14, true, 10⟩ = (⟨demoMem, [1,10,1,4294967287,0,0,0,0], 20, true, 11⟩, [], none) := by
  simp [TinyVM.step, TinyVM.fetch_u8, TinyVM.fetch_u32, NUM_REGS, demoMod12, demoMod40, demoMem_q0, demoMem_q1, demoMem_q2, demoMem_q3, demoMem_q4, demoMem_q5, demoMem_q6, demoMem_q7, demoMem_q8, demoMem_q9, demoMem_q10, demoMem_q11, demoMem_q12, demoMem_q13, demoMem_q14, demoMem_q15, demoMem_q16, demoMem_q17, demoMem_q18, demoMem_q19, demoMem_q20, demoMem_q21, demoMem_q22, demoMem_q23, demoMem_q24, demoMem_q25, demoMem_q26, demoMem_q27, demoMem_q28, demoMem_q29, demoMem_q30, demoMem_q31, demoMem_q32, demoMem_q33, demoMem_q34, demoMem_q35, demoMem_q36, demoMem_q37, demoMem_q38, demoMem_q39, demoMem_q40]

theorem demo_step11 : TinyVM.step ⟨demoMem, [1,10,1,4294967287,0,0,0,0], 20, true, 11⟩ = (⟨demoMem, [2,10,1,4294967287,0,0,0,0], 23, true, 12⟩, [], none) := by
  simp [TinyVM.step, TinyVM.fetch_u8, TinyVM.fetch_u32, NUM_REGS, demoMod12, demoMod40, demoMem_q0, demoMem_q1, demoMem_q2, demoMem_q3, demoMem_q4, demoMem_q5, demoMem_q6, demoMem_q7, demoMem_q8, demoMem_q9, demoMem_q10, demoMem_q11, demoMem_q12, demoMem_q13, demoMem_q14, demoMem_q15, demoMem_q16, demoMem_q17, demoMem_q18, demoMem_q19, demoMem_q20, demoMem_q21, demoMem_q22, demoMem_q23, demoMem_q24, demoMem_q25, demoMem_q26, demoMem_q27, demoMem_q28, demoMem_q29, demoMem_q30, demoMem_q31, demoMem_q32, demoMem_q33, demoMem_q34, demoMem_q35, demoMem_q36, demoMem_q37, demoMem_q38, demoMem_q39, demoMem_q40]

theorem demo_step12 : TinyVM.step ⟨demoMem, [2,10,1,4294967287,0,0,0,0], 23, true, 12⟩ = (⟨demoMem, [2,10,1,2,0,0,0,0], 26, true, 13⟩, [], none) := by
  simp [TinyVM.step, TinyVM.fetch_u8, TinyVM.fetch_u32, NUM_REGS, demoMod12, demoMod40, demoMem_q0, demoMem_q1, demoMem_q2, demoMem_q3, demoMem_q4, demoMem_q5, demoMem_q6, demoMem_q7, demoMem_q8, demoMem_q9, demoMem_q10, demoMem_q11, demoMem_q12, demoMem_q13, demoMem_q14, demoMem_q15, demoMem_q16, demoMem_q17, demoMem_q18, demoMem_q19, demoMem_q20, demoMem_q21, demoMem_q22, demoMem_q23, demoMem_q24, demoMem_q25, demoMem_q26, demoMem_q27, demoMem_q28, demoMem_q29, demoMem_q30, demoMem_q31, demoMem_q32, demoMem_q33, demoMem_q34, demoMem_q35, demoMem_q36, demoMem_q37, demoMem_q38, demoMem_q39, demoMem_q40]

theorem demo_step13 : TinyVM.step ⟨demoMem, [2,10,1,2,0,0,0,0], 26, true, 13⟩ = (⟨demoMem, [2,10,1,4294967288,0,0,0,0], 29, true, 14⟩, [], none) := by
  simp [TinyVM.step, TinyVM.fetch_u8, TinyVM.fetch_u32, NUM_REGS, demoMod12, demoMod40, demoMem_q0, demoMem_q1, demoMem_q2, demoMem_q3, demoMem_q4, demoMem_q5, demoMem_q6, demoMem_q7, demoMem_q8, demoMem_q9, demoMem_q10, demoMem_q11, demoMem_q12, demoMem_q13, demoMem_q14, demoMem_q15, demoMem_q16, demoMem_q17, demoMem_q18, demoMem_q19, demoMem_q20, demoMem_q21, demoMem_q22, demoMem_q23, demoMem_q24, demoMem_q25, demoMem_q26, demoMem_q27, demoMem_q28, demoMem_q29, demoMem_q30, demoMem_q31, demoMem_q32, demoMem_q33, demoMem_q34, demoMem_q35, demoMem_q36, demoMem_q37, demoMem_q38, demoMem_q39, demoMem_q40]

theorem demo_step14 : TinyVM.step ⟨demoMem, [2,10,1,4294967288,0,0,0,0], 29, true, 14⟩ = (⟨demoMem, [2,10,1,4294967288,0,0,0,0], 35, true, 15⟩, [], none) := by
  simp [TinyVM.step, TinyVM.fetch_u8, TinyVM.fetch_u32, NUM_REGS, demoMod12, demoMod40, demoMem_q0, demoMem_q1, demoMem_q2, demoMem_q3, demoMem_q4, demoMem_q5, demoMem_q6, demoMem_q7, demoMem_q8, demoMem_q9, demoMem_q10, demoMem_q11, demoMem_q12, demoMem_q13, demoMem_q14, demoMem_q15, demoMem_q16, demoMem_q17, demoMem_q18, demoMem_q19, demoMem_q20, demoMem_q21, demoMem_q22, demoMem_q23, demoMem_q24, demoMem_q25, demoMem_q26, demoMem_q27, demoMem_q28, demoMem_q29, demoMem_q30, demoMem_q31, demoMem_q32, demoMem_q33, demoMem_q34, demoMem_q35, demoMem_q36, demoMem_q37, demoMem_q38, demoMem_q39, demoMem_q40]

theorem demo_step15 : TinyVM.step ⟨demoMem, [2,10,1,4294967288,0,0,0,0], 35, true, 15⟩ = (⟨demoMem, [2,10,1,4294967288,0,0,0,0], 12, true, 16⟩, [], none) := by
  simp [TinyVM.step, TinyVM.fetch_u8, TinyVM.fetch_u32, NUM_REGS, demoMod12, demoMod40, demoMem_q0, demoMem_q1, demoMem_q2, demoMem_q3, demoMem_q4, demoMem_q5, demoMem_q6, demoMem_q7, demoMem_q8, demoMem_q9, demoMem_q10, demoMem_q11, demoMem_q12, demoMem_q13, demoMem_q14, demoMem_q15, demoMem_q16, demoMem_q17, demoMem_q18, demoMem_q19, demoMem_q20, demoMem_q21, demoMem_q22, demoMem_q23, demoMem_q24, demoMem_q25, demoMem_q26, demoMem_q27, demoMem_q28, demoMem_q29, demoMem_q30, demoMem_q31, demoMem_q32, demoMem_q33, demoMem_q34, demoMem_q35, demoMem_q36, demoMem_q37, demoMem_q38, demoMem_q39, demoMem_q40]

theorem demo_step16 : TinyVM.step ⟨demoMem, [2,10,1,4294967288,0,0,0,0], 12, true, 16⟩ = (⟨demoMem, [2,10,1,4294967288,0,0,0,0], 14, true, 17⟩, [Line.out "2"], none) := by
  simp [TinyVM.step, TinyVM.fetch_u8, TinyVM.fetch_u32, NUM_REGS, demoMod12, demoMod40, demoMem_q0, demoMem_q1, demoMem_q2, demoMem_q3, demoMem_q4, demoMem_q5, demoMem_q6, demoMem_q7, demoMem_q8, demoMem_q9, demoMem_q10, demoMem_q11, demoMem_q12, demoMem_q13, demoMem_q14, demoMem_q15, demoMem_q16, demoMem_q17, demoMem_q18, demoMem_q19, demoMem_q20, demoMem_q21, demoMem_q22, demoMem_q23, demoMem_q24, demoMem_q25, demoMem_q26, demoMem_q27, demoMem_q28, demoMem_q29, demoMem_q30, demoMem_q31, demoMem_q32, demoMem_q33, demoMem_q34, demoMem_q35, demoMem_q36, demoMem_q37, demoMem_q38, demoMem_q39, demoMem_q40, natStr2]

theorem demo_step17 : TinyVM.step ⟨demoMem, [2,10,1,4294967288,0,0,0,0], 14, true, 17⟩ = (⟨demoMem, [2,10,1,4294967288,0,0,0,0], 20, true, 18⟩, [], none) := by
  simp [TinyVM.step, TinyVM.fetch_u8, TinyVM.fetch_u32, NUM_REGS, demoMod12, demoMod40, demoMem_q0, demoMem_q1, demoMem_q2, demoMem_q3, demoMem_q4, demoMem_q5, demoMem_q6, demoMem_q7, demoMem_q8, demoMem_q9, demoMem_q10, demoMem_q11, demoMem_q12, demoMem_q13, demoMem_q14, demoMem_q15, demoMem_q16, demoMem_q17, demoMem_q18, demoMem_q19, demoMem_q20, demoMem_q21, demoMem_q22, demoMem_q23, demoMem_q24, demoMem_q25, demoMem_q26, demoMem_q27, demoMem_q28, demoMem_q29, demoMem_q30, demoMem_q31, demoMem_q32, demoMem_q33, demoMem_q34, demoMem_q35, demoMem_q36, demoMem_q37, demoMem_q38, demoMem_q39, demoMem_q40]

theorem demo_step18 : TinyVM.step ⟨demoMem, [2,10,1,4294967288,0,0,0,0], 20, true, 18⟩ = (⟨demoMem, [3,10,1,4294967288,0,0,0,0], 23, true, 19⟩, [], none) := by
  simp [TinyVM.step, TinyVM.fetch_u8, TinyVM.fetch_u32, NUM_REGS, demoMod12, demoMod40, demoMem_q0, demoMem_q1, demoMem_q2, demoMem_q3, demoMem_q4, demoMem_q5, demoMem_q6, demoMem_q7, demoMem_q8, demoMem_q9, demoMem_q10, demoMem_q11, demoMem_q12, demoMem_q13, demoMem_q14, demoMem_q15, demoMem_q16, demoMem_q17, demoMem_q18, demoMem_q19, demoMem_q20, demoMem_q21, demoMem_q22, demoMem_q23, demoMem_q24, demoMem_q25, demoMem_q26, demoMem_q27, demoMem_q28, demoMem_q29, demoMem_q30, demoMem_q31, demoMem_q32, demoMem_q33, demoMem_q34, demoMem_q35, demoMem_q36, demoMem_q37, demoMem_q38, demoMem_q39, demoMem_q40]

theorem demo_step19 : TinyVM.step ⟨demoMem, [3,10,1,4294967288,0,0,0,0], 23, true, 19⟩ = (⟨demoMem, [3,10,1,3,0,0,0,0], 26, true, 20⟩, [], none) := by
  simp [TinyVM.step, TinyVM.fetch_u8, TinyVM.fetch_u32, NUM_REGS, demoMod12, demoMod40, demoMem_q0, demoMem_q1, demoMem_q2, demoMem_q3, demoMem_q4, demoMem_q5, demoMem_q6, demoMem_q7, demoMem_q8, demoMem_q9, demoMem_q10, demoMem_q11, demoMem_q12, demoMem_q13, demoMem_q14, demoMem_q15, demoMem_q16, demoMem_q17, demoMem_q18, demoMem_q19, demoMem_q20, demoMem_q21, demoMem_q22, demoMem_q23, demoMem_q24, demoMem_q25, demoMem_q26, demoMem_q27, demoMem_q28, demoMem_q29, demoMem_q30, demoMem_q31, demoMem_q32, demoMem_q33, demoMem_q34, demoMem_q35, demoMem_q36, demoMem_q37, demoMem_q38, demoMem_q39, demoMem_q40]

theorem demo_step20 : TinyVM.step ⟨demoMem, [3,10,1,3,0,0,0,0], 26, true, 20⟩ = (⟨demoMem, [3,10,1,4294967289,0,0,0,0], 29, true, 21⟩, [], none) := by
  simp [TinyVM.step, TinyVM.fetch_u8, TinyVM.fetch_u32, NUM_REGS, demoMod12, demoMod40, demoMem_q0, demoMem_q1, demoMem_q2, demoMem_q3, demoMem_q4, demoMem_q5, demoMem_q6, demoMem_q7, demoMem_q8, demoMem_q9, demoMem_q10, demoMem_q11, demoMem_q12, demoMem_q13, demoMem_q14, demoMem_q15, demoMem_q16, demoMem_q17, demoMem_q18, demoMem_q19, demoMem_q20, demoMem_q21, demoMem_q22, demoMem_q23, demoMem_q24, demoMem_q25, demoMem_q26, demoMem_q27, demoMem_q28, demoMem_q29, demoMem_q30, demoMem_q31, demoMem_q32, demoMem_q33, demoMem_q34, demoMem_q35, demoMem_q36, demoMem_q37, demoMem_q38, demoMem_q39, demoMem_q40]

theorem demo_step21 : TinyVM.step ⟨demoMem, [3,10,1,4294967289,0,0,0,0], 29, true, 21⟩ = (⟨demoMem, [3,10,1,4294967289,0,0,0,0], 35, true, 22⟩, [], none) := by
  simp [TinyVM.step, TinyVM.fetch_u8, TinyVM.fetch_u32, NUM_REGS, demoMod12, demoMod40, demoMem_q0, demoMem_q1, demoMem_q2, demoMem_q3, demoMem_q4, demoMem_q5, demoMem_q6, demoMem_q7, demoMem_q8, demoMem_q9, demoMem_q10, demoMem_q11, demoMem_q12, demoMem_q13, demoMem_q14, demoMem_q15, demoMem_q16, demoMem_q17, demoMem_q18, demoMem_q19, demoMem_q20, demoMem_q21, demoMem_q22, demoMem_q23, demoMem_q24, demoMem_q25, demoMem_q26, demoMem_q27, demoMem_q28, demoMem_q29, demoMem_q30, demoMem_q31, demoMem_q32, demoMem_q33, demoMem_q34, demoMem_q35, demoMem_q36, demoMem_q37, demoMem_q38, demoMem_q39, demoMem_q40]

theorem demo_step22 : TinyVM.step ⟨demoMem, [3,10,1,4294967289,0,0,0,0], 35, true, 22⟩ = (⟨demoMem, [3,10,1,4294967289,0,0,0,0], 12, true, 23⟩, [], none) := by
  simp [TinyVM.step, TinyVM.fetch_u8, TinyVM.fetch_u32, NUM_REGS, demoMod12, demoMod40, demoMem_q0, demoMem_q1, demoMem_q2, demoMem_q3, demoMem_q4, demoMem_q5, demoMem_q6, demoMem_q7, demoMem_q8, demoMem_q9, demoMem_q10, demoMem_q11, demoMem_q12, demoMem_q13, demoMem_q14, demoMem_q15, demoMem_q16, demoMem_q17, demoMem_q18, demoMem_q19, demoMem_q20, demoMem_q21, demoMem_q22, demoMem_q23, demoMem_q24, demoMem_q25, demoMem_q26, demoMem_q27, demoMem_q28, demoMem_q29, demoMem_q30, demoMem_q31, demoMem_q32, demoMem_q33, demoMem_q34, demoMem_q35, demoMem_q36, demoMem_q37, demoMem_q38, demoMem_q39, demoMem_q40]

theorem demo_step23 : TinyVM.step ⟨demoMem, [3,10,1,4294967289,0,0,0,0], 12, true, 23⟩ = (⟨demoMem, [3,10,1,4294967289,0,0,0,0], 14, true, 24⟩, [Line.out "3"], none) := by
  simp [TinyVM.step, TinyVM.fetch_u8, TinyVM.fetch_u32, NUM_REGS, demoMod12, demoMod40, demoMem_q0, demoMem_q1, demoMem_q2, demoMem_q3, demoMem_q4, demoMem_q5, demoMem_q6, demoMem_q7, demoMem_q8, demoMem_q9, demoMem_q10, demoMem_q11, demoMem_q12, demoMem_q13, demoMem_q14, demoMem_q15, demoMem_q16, demoMem_q17, demoMem_q18, demoMem_q19, demoMem_q20, demoMem_q21, demoMem_q22, demoMem_q23, demoMem_q24, demoMem_q25, demoMem_q26, demoMem_q27, demoMem_q28, demoMem_q29, demoMem_q30, demoMem_q31, demoMem_q32, demoMem_q33, demoMem_q34, demoMem_q35, demoMem_q36, demoMem_q37, demoMem_q38, demoMem_q39, demoMem_q40, natStr3]

theorem demo_step24 : TinyVM.step ⟨demoMem, [3,10,1,4294967289,0,0,0,0], 14, true, 24⟩ = (⟨demoMem, [3,10,1,4294967289,0,0,0,0], 20, true, 25⟩, [], none) := by
  simp [TinyVM.step, TinyVM.fetch_u8, TinyVM.fetch_u32, NUM_REGS, demoMod12, demoMod40, demoMem_q0, demoMem_q1, demoMem_q2, demoMem_q3, demoMem_q4, demoMem_q5, demoMem_q6, demoMem_q7, demoMem_q8, demoMem_q9, demoMem_q10, demoMem_q11, demoMem_q12, demoMem_q13, demoMem_q14, demoMem_q15, demoMem_q16, demoMem_q17, demoMem_q18, demoMem_q19, demoMem_q20, demoMem_q21, demoMem_q22, demoMem_q23, demoMem_q24, demoMem_q25, demoMem_q26, demoMem_q27, demoMem_q28, demoMem_q29, demoMem_q30, demoMem_q31, demoMem_q32, demoMem_q33, demoMem_q34, demoMem_q35, demoMem_q36, demoMem_q37, demoMem_q38, demoMem_q39, demoMem_q40]

theorem demo_step25 : TinyVM.step ⟨demoMem, [3,10,1,4294967289,0,0,0,0], 20, true, 25⟩ = (⟨demoMem, [4,10,1,4294967289,0,0,0,0], 23, true, 26⟩, [], none) := by
  simp [TinyVM.step, TinyVM.fetch_u8, TinyVM.fetch_u32, NUM_REGS, demoMod12, demoMod40, demoMem_q0, demoMem_q1, demoMem_q2, demoMem_q3, demoMem_q4, demoMem_q5, demoMem_q6, demoMem_q7, demoMem_q8, demoMem_q9, demoMem_q10, demoMem_q11, demoMem_q12, demoMem_q13, demoMem_q14, demoMem_q15, demoMem_q16, demoMem_q17, demoMem_q18, demoMem_q19, demoMem_q20, demoMem_q21, demoMem_q22, demoMem_q23, demoMem_q24, demoMem_q25, demoMem_q26, demoMem_q27, demoMem_q28, demoMem_q29, demoMem_q30, demoMem_q31, demoMem_q32, demoMem_q33, demoMem_q34, demoMem_q35, demoMem_q36, demoMem_q37, demoMem_q38, demoMem_q39, demoMem_q40]

theorem demo_step26 : TinyVM.step ⟨demoMem, [4,10,1,4294967289,0,0,0,0], 23, true, 26⟩ = (⟨demoMem, [4,10,1,4,0,0,0,0], 26, true, 27⟩, [], none) := by
  simp [TinyVM.step, TinyVM.fetch_u8, TinyVM.fetch_u32, NUM_REGS, demoMod12, demoMod40, demoMem_q0, demoMem_q1, demoMem_q2, demoMem_q3, demoMem_q4, demoMem_q5, demoMem_q6, demoMem_q7, demoMem_q8, demoMem_q9, demoMem_q10, demoMem_q11, demoMem_q12, demoMem_q13, demoMem_q14, demoMem_q15, demoMem_q16, demoMem_q17, demoMem_q18, demoMem_q19, demoMem_q20, demoMem_q21, demoMem_q22, demoMem_q23, demoMem_q24, demoMem_q25, demoMem_q26, demoMem_q27, demoMem_q28, demoMem_q29, demoMem_q30, demoMem_q31, demoMem_q32, demoMem_q33, demoMem_q34, demoMem_q35, demoMem_q36, demoMem_q37, demoMem_q38, demoMem_q39, demoMem_q40]

theorem demo_step27 : TinyVM.step ⟨demoMem, [4,10,1,4,0,0,0,0], 26, true, 27⟩ = (⟨demoMem, [4,10,1,4294967290,0,0,0,0], 29, true, 28⟩, [], none) := by
  simp [TinyVM.step, TinyVM.fetch_u8, TinyVM.fetch_u32, NUM_REGS, demoMod12, demoMod40, demoMem_q0, demoMem_q1, demoMem_q2, demoMem_q3, demoMem_q4, demoMem_q5, demoMem_q6, demoMem_q7, demoMem_q8, demoMem_q9, demoMem_q10, demoMem_q11, demoMem_q12, demoMem_q13, demoMem_q14, demoMem_q15, demoMem_q16, demoMem_q17, demoMem_q18, demoMem_q19, demoMem_q20, demoMem_q21, demoMem_q22, demoMem_q23, demoMem_q24, demoMem_q25, demoMem_q26, demoMem_q27, demoMem_q28, demoMem_q29, demoMem_q30, demoMem_q31, demoMem_q32, demoMem_q33, demoMem_q34, demoMem_q35, demoMem_q36, demoMem_q37, demoMem_q38, demoMem_q39, demoMem_q40]

theorem demo_step28 : TinyVM.step ⟨demoMem, [4,10,1,4294967290,0,0,0,0], 29, true, 28⟩ = (⟨demoMem, [4,10,1,4294967290,0,0,0,0], 35, true, 29⟩, [], none) := by
  simp [TinyVM.step, TinyVM.fetch_u8, TinyVM.fetch_u32, NUM_REGS, demoMod12, demoMod40, demoMem_q0, demoMem_q1, demoMem_q2, demoMem_q3, demoMem_q4, demoMem_q5, demoMem_q6, demoMem_q7, demoMem_q8, demoMem_q9, demoMem_q10, demoMem_q11, demoMem_q12, demoMem_q13, demoMem_q14, demoMem_q15, demoMem_q16, demoMem_q17, demoMem_q18, demoMem_q19, demoMem_q20, demoMem_q21, demoMem_q22, demoMem_q23, demoMem_q24, demoMem_q25, demoMem_q26, demoMem_q27, demoMem_q28, demoMem_q29, demoMem_q30, demoMem_q31, demoMem_q32, demoMem_q33, demoMem_q34, demoMem_q35, demoMem_q36, demoMem_q37, demoMem_q38, demoMem_q39, demoMem_q40]

theorem demo_step29 : TinyVM.step ⟨demoMem, [4,10,1,4294967290,0,0,0,0], 35, true, 29⟩ = (⟨demoMem, [4,10,1,4294967290,0,0,0,0], 12, true, 30⟩, [], none) := by
  simp [TinyVM.step, TinyVM.fetch_u8, TinyVM.fetch_u32, NUM_REGS, demoMod12, demoMod40, demoMem_q0, demoMem_q1, demoMem_q2, demoMem_q3, demoMem_q4, demoMem_q5, demoMem_q6, demoMem_q7, demoMem_q8, demoMem_q9, demoMem_q10, demoMem_q11, demoMem_q12, demoMem_q13, demoMem_q14, demoMem_q15, demoMem_q16, demoMem_q17, demoMem_q18, demoMem_q19, demoMem_q20, demoMem_q21, demoMem_q22, demoMem_q23, demoMem_q24, demoMem_q25, demoMem_q26, demoMem_q27, demoMem_q28, demoMem_q29, demoMem_q30, demoMem_q31, demoMem_q32, demoMem_q33, demoMem_q34, demoMem_q35, demoMem_q36, demoMem_q37, demoMem_q38, demoMem_q39, demoMem_q40]

theorem demo_step30 : TinyVM.step ⟨demoMem, [4,10,1,4294967290,0,0,0,0], 12, true, 30⟩ = (⟨demoMem, [4,10,1,4294967290,0,0,0,0], 14, true, 31⟩, [Line.out "4"], none) := by
  simp [TinyVM.step, TinyVM.fetch_u8, TinyVM.fetch_u32, NUM_REGS, demoMod12, demoMod40, demoMem_q0, demoMem_q1, demoMem_q2, demoMem_q3, demoMem_q4, demoMem_q5, demoMem_q6, demoMem_q7, demoMem_q8, demoMem_q9, demoMem_q10, demoMem_q11, demoMem_q12, demoMem_q13, demoMem_q14, demoMem_q15, demoMem_q16, demoMem_q17, demoMem_q18, demoMem_q19, demoMem_q20, demoMem_q21, demoMem_q22, demoMem_q23, demoMem_q24, demoMem_q25, demoMem_q26, demoMem_q27, demoMem_q28, demoMem_q29, demoMem_q30, demoMem_q31, demoMem_q32, demoMem_q33, demoMem_q34, demoMem_q35, demoMem_q36, demoMem_q37, demoMem_q38, demoMem_q39, demoMem_q40, natStr4]

theorem demo_step31 : TinyVM.step ⟨demoMem, [4,10,1,4294967290,0,0,0,0], 14, true, 31⟩ = (⟨demoMem, [4,10,1,4294967290,0,0,0,0], 20, true, 32⟩, [], none) := by
  simp [TinyVM.step, TinyVM.fetch_u8, TinyVM.fetch_u32, NUM_REGS, demoMod12, demoMod40, demoMem_q0, demoMem_q1, demoMem_q2, demoMem_q3, demoMem_q4, demoMem_q5, demoMem_q6, demoMem_q7, demoMem_q8, demoMem_q9, demoMem_q10, demoMem_q11, demoMem_q12, demoMem_q13, demoMem_q14, demoMem_q15, demoMem_q16, demoMem_q17, demoMem_q18, demoMem_q19, demoMem_q20, demoMem_q21, demoMem_q22, demoMem_q23, demoMem_q24, demoMem_q25, demoMem_q26, demoMem_q27, demoMem_q28, demoMem_q29, demoMem_q30, demoMem_q31, demoMem_q32, demoMem_q33, demoMem_q34, demoMem_q35, demoMem_q36, demoMem_q37, demoMem_q38, demoMem_q39, demoMem_q40]

theorem demo_step32 : TinyVM.step ⟨demoMem, [4,10,1,4294967290,0,0,0,0], 20, true, 32⟩ = (⟨demoMem, [5,10,1,4294967290,0,0,0,0], 23, true, 33⟩, [], none) := by
  simp [TinyVM.step, TinyVM.fetch_u8, TinyVM.fetch_u32, NUM_REGS, demoMod12, demoMod40, demoMem_q0, demoMem_q1, demoMem_q2, demoMem_q3, demoMem_q4, demoMem_q5, demoMem_q6, demoMem_q7, demoMem_q8, demoMem_q9, demoMem_q10, demoMem_q11, demoMem_q12, demoMem_q13, demoMem_q14, demoMem_q15, demoMem_q16, demoMem_q17, demoMem_q18, demoMem_q19, demoMem_q20, demoMem_q21, demoMem_q22, demoMem_q23, demoMem_q24, demoMem_q25, demoMem_q26, demoMem_q27, demoMem_q28, demoMem_q29, demoMem_q30, demoMem_q31, demoMem_q32, demoMem_q33, demoMem_q34, demoMem_q35, demoMem_q36, demoMem_q37, demoMem_q38, demoMem_q39, demoMem_q40]

theorem demo_step33 : TinyVM.step ⟨demoMem, [5,10,1,4294967290,0,0,0,0], 23, true, 33⟩ = (⟨demoMem, [5,10,1,5,0,0,0,0], 26, true, 34⟩, [], none) := by
  simp [TinyVM.step, TinyVM.fetch_u8, TinyVM.fetch_u32, NUM_REGS, demoMod12, demoMod40, demoMem_q0, demoMem_q1, demoMem_q2, demoMem_q3, demoMem_q4, demoMem_q5, demoMem_q6, demoMem_q7, demoMem_q8, demoMem_q9, demoMem_q10, demoMem_q11, demoMem_q12, demoMem_q13, demoMem_q14, demoMem_q15, demoMem_q16, demoMem_q17, demoMem_q18, demoMem_q19, demoMem_q20, demoMem_q21, demoMem_q22, demoMem_q23, demoMem_q24, demoMem_q25, demoMem_q26, demoMem_q27, demoMem_q28, demoMem_q29, demoMem_q30, demoMem_q31, demoMem_q32, demoMem_q33, demoMem_q34, demoMem_q35, demoMem_q36, demoMem_q37, demoMem_q38, demoMem_q39, demoMem_q40]

theorem demo_step34 : TinyVM.step ⟨demoMem, [5,10,1,5,0,0,0,0], 26, true, 34⟩ = (⟨demoMem, [5,10,1,4294967291,0,0,0,0], 29, true, 35⟩, [], none) := by
  simp [TinyVM.step, TinyVM.fetch_u8, TinyVM.fetch_u32, NUM_REGS, demoMod12, demoMod40, demoMem_q0, demoMem_q1, demoMem_q2, demoMem_q3, demoMem_q4, demoMem_q5, demoMem_q6, demoMem_q7, demoMem_q8, demoMem_q9, demoMem_q10, demoMem_q11, demoMem_q12, demoMem_q13, demoMem_q14, demoMem_q15, demoMem_q16, demoMem_q17, demoMem_q18, demoMem_q19, demoMem_q20, demoMem_q21, demoMem_q22, demoMem_q23, demoMem_q24, demoMem_q25, demoMem_q26, demoMem_q27, demoMem_q28, demoMem_q29, demoMem_q30, demoMem_q31, demoMem_q32, demoMem_q33, demoMem_q34, demoMem_q35, demoMem_q36, demoMem_q37, demoMem_q38, demoMem_q39, demoMem_q40]

theorem demo_step35 : TinyVM.step ⟨demoMem, [5,10,1,4294967291,0,0,0,0], 29, true, 35⟩ = (⟨demoMem, [5,10,1,4294967291,0,0,0,0], 35, true, 36⟩, [], none) := by
  simp [TinyVM.step, TinyVM.fetch_u8, TinyVM.fetch_u32, NUM_REGS, demoMod12, demoMod40, demoMem_q0, demoMem_q1, demoMem_q2, demoMem_q3, demoMem_q4, demoMem_q5, demoMem_q6, demoMem_q7, demoMem_q8, demoMem_q9, demoMem_q10, demoMem_q11, demoMem_q12, demoMem_q13, demoMem_q14, demoMem_q15, demoMem_q16, demoMem_q17, demoMem_q18, demoMem_q19, demoMem_q20, demoMem_q21, demoMem_q22, demoMem_q23, demoMem_q24, demoMem_q25, demoMem_q26, demoMem_q27, demoMem_q28, demoMem_q29, demoMem_q30, demoMem_q31, demoMem_q32, demoMem_q33, demoMem_q34, demoMem_q35, demoMem_q36, demoMem_q37, demoMem_q38, demoMem_q39, demoMem_q40]

theorem demo_step36 : TinyVM.step ⟨demoMem, [5,10,1,4294967291,0,0,0,0], 35, true, 36⟩ = (⟨demoMem, [5,10,1,4294967291,0,0,0,0], 12, true, 37⟩, [], none) := by
  simp [TinyVM.step, TinyVM.fetch_u8, TinyVM.fetch_u32, NUM_REGS, demoMod12, demoMod40, demoMem_q0, demoMem_q1, demoMem_q2, demoMem_q3, demoMem_q4, demoMem_q5, demoMem_q6, demoMem_q7, demoMem_q8, demoMem_q9, demoMem_q10, demoMem_q11, demoMem_q12, demoMem_q13, demoMem_q14, demoMem_q15, demoMem_q16, demoMem_q17, demoMem_q18, demoMem_q19, demoMem_q20, demoMem_q21, demoMem_q22, demoMem_q23, demoMem_q24, demoMem_q25, demoMem_q26, demoMem_q27, demoMem_q28, demoMem_q29, demoMem_q30, demoMem_q31, demoMem_q32, demoMem_q33, demoMem_q34, demoMem_q35, demoMem_q36, demoMem_q37, demoMem_q38, demoMem_q39, demoMem_q40]

theorem demo_step37 : TinyVM.step ⟨demoMem, [5,10,1,4294967291,0,0,0,0], 12, true, 37⟩ = (⟨demoMem, [5,10,1,4294967291,0,0,0,0], 14, true, 38⟩, [Line.out "5"], none) := by
  simp [TinyVM.step, TinyVM.fetch_u8, TinyVM.fetch_u32, NUM_REGS, demoMod12, demoMod40, demoMem_q0, demoMem_q1, demoMem_q2, demoMem_q3, demoMem_q4, demoMem_q5, demoMem_q6, demoMem_q7, demoMem_q8, demoMem_q9, demoMem_q10, demoMem_q11, demoMem_q12, demoMem_q13, demoMem_q14, demoMem_q15, demoMem_q16, demoMem_q17, demoMem_q18, demoMem_q19, demoMem_q20, demoMem_q21, demoMem_q22, demoMem_q23, demoMem_q24, demoMem_q25, demoMem_q26, demoMem_q27, demoMem_q28, demoMem_q29, demoMem_q30, demoMem_q31, demoMem_q32, demoMem_q33, demoMem_q34, demoMem_q35, demoMem_q36, demoMem_q37, demoMem_q38, demoMem_q39, demoMem_q40, natStr5]

theorem demo_step38 : TinyVM.step ⟨demoMem, [5,10,1,4294967291,0,0,0,0], 14, true, 38⟩ = (⟨demoMem, [5,10,1,4294967291,0,0,0,0], 20, true, 39⟩, [], none) := by
  simp [TinyVM.step, TinyVM.fetch_u8, TinyVM.fetch_u32, NUM_REGS, demoMod12, demoMod40, demoMem_q0, demoMem_q1, demoMem_q2, demoMem_q3, demoMem_q4, demoMem_q5, demoMem_q6, demoMem_q7, demoMem_q8, demoMem_q9, demoMem_q10, demoMem_q11, demoMem_q12, demoMem_q13, demoMem_q14, demoMem_q15, demoMem_q16, demoMem_q17, demoMem_q18, demoMem_q19, demoMem_q20, demoMem_q21, demoMem_q22, demoMem_q23, demoMem_q24, demoMem_q25, demoMem_q26, demoMem_q27, demoMem_q28, demoMem_q29, demoMem_q30, demoMem_q31, demoMem_q32, demoMem_q33, demoMem_q34, demoMem_q35, demoMem_q36, demoMem_q37, demoMem_q38, demoMem_q39, demoMem_q40]

theorem demo_step39 : TinyVM.step ⟨demoMem, [5,10,1,4294967291,0,0,0,0], 20, true, 39⟩ = (⟨demoMem, [6,10,1,4294967291,0,0,0,0], 23, true, 40⟩, [], none) := by
  simp [TinyVM.step, TinyVM.fetch_u8, TinyVM.fetch_u32, NUM_REGS, demoMod12, demoMod40, demoMem_q0, demoMem_q1, demoMem_q2, demoMem_q3, demoMem_q4, demoMem_q5, demoMem_q6, demoMem_q7, demoMem_q8, demoMem_q9, demoMem_q10, demoMem_q11, demoMem_q12, demoMem_q13, demoMem_q14, demoMem_q15, demoMem_q16, demoMem_q17, demoMem_q18, demoMem_q19, demoMem_q20, demoMem_q21, demoMem_q22, demoMem_q23, demoMem_q24, demoMem_q25, demoMem_q26, demoMem_q27, demoMem_q28, demoMem_q29, demoMem_q30, demoMem_q31, demoMem_q32, demoMem_q33, demoMem_q34, demoMem_q35, demoMem_q36, demoMem_q37, demoMem_q38, demoMem_q39, demoMem_q40]

theorem demo_step40 : TinyVM.step ⟨demoMem, [6,10,1,4294967291,0,0,0,0], 23, true, 40⟩ = (⟨demoMem, [6,10,1,6,0,0,0,0], 26, true, 41⟩, [], none) := by
  simp [TinyVM.step, TinyVM.fetch_u8, TinyVM.fetch_u32, NUM_REGS, demoMod12, demoMod40, demoMem_q0, demoMem_q1, demoMem_q2, demoMem_q3, demoMem_q4, demoMem_q5, demoMem_q6, demoMem_q7, demoMem_q8, demoMem_q9, demoMem_q10, demoMem_q11, demoMem_q12, demoMem_q13, demoMem_q14, demoMem_q15, demoMem_q16, demoMem_q17, demoMem_q18, demoMem_q19, demoMem_q20, demoMem_q21, demoMem_q22, demoMem_q23, demoMem_q24, demoMem_q25, demoMem_q26, demoMem_q27, demoMem_q28, demoMem_q29, demoMem_q30, demoMem_q31, demoMem_q32, demoMem_q33, demoMem_q34, demoMem_q35, demoMem_q36, demoMem_q37, demoMem_q38, demoMem_q39, demoMem_q40]

theorem demo_step41 : TinyVM.step ⟨demoMem, [6,10,1,6,0,0,0,0], 26, true, 41⟩ = (⟨demoMem, [6,10,1,4294967292,0,0,0,0], 29, true, 42⟩, [], none) := by
  simp [TinyVM.step, TinyVM.fetch_u8, TinyVM.fetch_u32, NUM_REGS, demoMod12, demoMod40, demoMem_q0, demoMem_q1, demoMem_q2, demoMem_q3, demoMem_q4, demoMem_q5, demoMem_q6, demoMem_q7, demoMem_q8, demoMem_q9, demoMem_q10, demoMem_q11, demoMem_q12, demoMem_q13, demoMem_q14, demoMem_q15, demoMem_q16, demoMem_q17, demoMem_q18, demoMem_q19, demoMem_q20, demoMem_q21, demoMem_q22, demoMem_q23, demoMem_q24, demoMem_q25, demoMem_q26, demoMem_q27, demoMem_q28, demoMem_q29, demoMem_q30, demoMem_q31, demoMem_q32, demoMem_q33, demoMem_q34, demoMem_q35, demoMem_q36, demoMem_q37, demoMem_q38, demoMem_q39, demoMem_q40]

theorem demo_step42 : TinyVM.step ⟨demoMem, [6,10,1,4294967292,0,0,0,0], 29, true, 42⟩ = (⟨demoMem, [6,10,1,4294967292,0,0,0,0], 35, true, 43⟩, [], none) := by
  simp [TinyVM.step, TinyVM.fetch_u8, TinyVM.fetch_u32, NUM_REGS, demoMod12, demoMod40, demoMem_q0, demoMem_q1, demoMem_q2, demoMem_q3, demoMem_q4, demoMem_q5, demoMem_q6, demoMem_q7, demoMem_q8, demoMem_q9, demoMem_q10, demoMem_q11, demoMem_q12, demoMem_q13, demoMem_q14, demoMem_q15, demoMem_q16, demoMem_q17, demoMem_q18, demoMem_q19, demoMem_q20, demoMem_q21, demoMem_q22, demoMem_q23, demoMem_q24, demoMem_q25, demoMem_q26, demoMem_q27, demoMem_q28, demoMem_q29, demoMem_q30, demoMem_q31, demoMem_q32, demoMem_q33, demoMem_q34, demoMem_q35, demoMem_q36, demoMem_q37, demoMem_q38, demoMem_q39, demoMem_q40]

theorem demo_step43 : TinyVM.step ⟨demoMem, [6,10,1,4294967292,0,0,0,0], 35, true, 43⟩ = (⟨demoMem, [6,10,1,4294967292,0,0,0,0], 12, true, 44⟩, [], none) := by
  simp [TinyVM.step, TinyVM.fetch_u8, TinyVM.fetch_u32, NUM_REGS, demoMod12, demoMod40, demoMem_q0, demoMem_q1, demoMem_q2, demoMem_q3, demoMem_q4, demoMem_q5, demoMem_q6, demoMem_q7, demoMem_q8, demoMem_q9, demoMem_q10, demoMem_q11, demoMem_q12, demoMem_q13, demoMem_q14, demoMem_q15, demoMem_q16, demoMem_q17, demoMem_q18, demoMem_q19, demoMem_q20, demoMem_q21, demoMem_q22, demoMem_q23, demoMem_q24, demoMem_q25, demoMem_q26, demoMem_q27, demoMem_q28, demoMem_q29, demoMem_q30, demoMem_q31, demoMem_q32, demoMem_q33, demoMem_q34, demoMem_q35, demoMem_q36, demoMem_q37, demoMem_q38, demoMem_q39, demoMem_q40]

theorem demo_step44 : TinyVM.step ⟨demoMem, [6,10,1,4294967292,0,0,0,0], 12, true, 44⟩ = (⟨demoMem, [6,10,1,4294967292,0,0,0,0], 14, true, 45⟩, [Line.out "6"], none) := by
  simp [TinyVM.step, TinyVM.fetch_u8, TinyVM.fetch_u32, NUM_REGS, demoMod12, demoMod40, demoMem_q0, demoMem_q1, demoMem_q2, demoMem_q3, demoMem_q4, demoMem_q5, demoMem_q6, demoMem_q7, demoMem_q8, demoMem_q9, demoMem_q10, demoMem_q11, demoMem_q12, demoMem_q13, demoMem_q14, demoMem_q15, demoMem_q16, demoMem_q17, demoMem_q18, demoMem_q19, demoMem_q20, demoMem_q21, demoMem_q22, demoMem_q23, demoMem_q24, demoMem_q25, demoMem_q26, demoMem_q27, demoMem_q28, demoMem_q29, demoMem_q30, demoMem_q31, demoMem_q32, demoMem_q33, demoMem_q34, demoMem_q35, demoMem_q36, demoMem_q37, demoMem_q38, demoMem_q39, demoMem_q40, natStr6]

theorem demo_step45 : TinyVM.step ⟨demoMem, [6,10,1,4294967292,0,0,0,0], 14, true, 45⟩ = (⟨demoMem, [6,10,1,4294967292,0,0,0,0], 20, true, 46⟩, [], none) := by
  simp [TinyVM.step, TinyVM.fetch_u8, TinyVM.fetch_u32, NUM_REGS, demoMod12, demoMod40, demoMem_q0, demoMem_q1, demoMem_q2, demoMem_q3, demoMem_q4, demoMem_q5, demoMem_q6, demoMem_q7, demoMem_q8, demoMem_q9, demoMem_q10, demoMem_q11, demoMem_q12, demoMem_q13, demoMem_q14, demoMem_q15, demoMem_q16, demoMem_q17, demoMem_q18, demoMem_q19, demoMem_q20, demoMem_q21, demoMem_q22, demoMem_q23, demoMem_q24, demoMem_q25, demoMem_q26, demoMem_q27, demoMem_q28, demoMem_q29, demoMem_q30, demoMem_q31, demoMem_q32, demoMem_q33, demoMem_q34, demoMem_q35, demoMem_q36, demoMem_q37, demoMem_q38, demoMem_q39, demoMem_q40]

theorem demo_step46 : TinyVM.step ⟨demoMem, [6,10,1,4294967292,0,0,0,0], 20, true, 46⟩ = (⟨demoMem, [7,10,1,4294967292,0,0,0,0], 23, true, 47⟩, [], none) := by
  simp [TinyVM.step, TinyVM.fetch_u8, TinyVM.fetch_u32, NUM_REGS, demoMod12, demoMod40, demoMem_q0, demoMem_q1, demoMem_q2, demoMem_q3, demoMem_q4, demoMem_q5, demoMem_q6, demoMem_q7, demoMem_q8, demoMem_q9, demoMem_q10, demoMem_q11, demoMem_q12, demoMem_q13, demoMem_q14, demoMem_q15, demoMem_q16, demoMem_q17, demoMem_q18, demoMem_q19, demoMem_q20, demoMem_q21, demoMem_q22, demoMem_q23, demoMem_q24, demoMem_q25, demoMem_q26, demoMem_q27, demoMem_q28, demoMem_q29, demoMem_q30, demoMem_q31, demoMem_q32, demoMem_q33, demoMem_q34, demoMem_q35, demoMem_q36, demoMem_q37, demoMem_q38, demoMem_q39, demoMem_q40]

theorem demo_step47 : TinyVM.step ⟨demoMem, [7,10,1,4294967292,0,0,0,0], 23, true, 47⟩ = (⟨demoMem, [7,10,1,7,0,0,0,0], 26, true, 48⟩, [], none) := by
  simp [TinyVM.step, TinyVM.fetch_u8, TinyVM.fetch_u32, NUM_REGS, demoMod12, demoMod40, demoMem_q0, demoMem_q1, demoMem_q2, demoMem_q3, demoMem_q4, demoMem_q5, demoMem_q6, demoMem_q7, demoMem_q8, demoMem_q9, demoMem_q10, demoMem_q11, demoMem_q12, demoMem_q13, demoMem_q14, demoMem_q15, demoMem_q16, demoMem_q17, demoMem_q18, demoMem_q19, demoMem_q20, demoMem_q21, demoMem_q22, demoMem_q23, demoMem_q24, demoMem_q25, demoMem_q26, demoMem_q27, demoMem_q28, demoMem_q29, demoMem_q30, demoMem_q31, demoMem_q32, demoMem_q33, demoMem_q34, demoMem_q35, demoMem_q36, demoMem_q37, demoMem_q38, demoMem_q39, demoMem_q40]

theorem demo_step48 : TinyVM.step ⟨demoMem, [7,10,1,7,0,0,0,0], 26, true, 48⟩ = (⟨demoMem, [7,10,1,4294967293,0,0,0,0], 29, true, 49⟩, [], none) := by
  simp [TinyVM.step, TinyVM.fetch_u8, TinyVM.fetch_u32, NUM_REGS, demoMod12, demoMod40, demoMem_q0, demoMem_q1, demoMem_q2, demoMem_q3, demoMem_q4, demoMem_q5, demoMem_q6, demoMem_q7, demoMem_q8, demoMem_q9, demoMem_q10, demoMem_q11, demoMem_q12, demoMem_q13, demoMem_q14, demoMem_q15, demoMem_q16, demoMem_q17, demoMem_q18, demoMem_q19, demoMem_q20, demoMem_q21, demoMem_q22, demoMem_q23, demoMem_q24, demoMem_q25, demoMem_q26, demoMem_q27, demoMem_q28, demoMem_q29, demoMem_q30, demoMem_q31, demoMem_q32, demoMem_q33, demoMem_q34, demoMem_q35, demoMem_q36, demoMem_q37, demoMem_q38, demoMem_q39, demoMem_q40]

theorem demo_step49 : TinyVM.step ⟨demoMem, [7,10,1,4294967293,0,0,0,0], 29, true, 49⟩ = (⟨demoMem, [7,10,1,4294967293,0,0,0,0], 35, true, 50⟩, [], none) := by
  simp [TinyVM.step, TinyVM.fetch_u8, TinyVM.fetch_u32, NUM_REGS, demoMod12, demoMod40, demoMem_q0, demoMem_q1, demoMem_q2, demoMem_q3, demoMem_q4, demoMem_q5, demoMem_q6, demoMem_q7, demoMem_q8, demoMem_q9, demoMem_q10, demoMem_q11, demoMem_q12, demoMem_q13, demoMem_q14, demoMem_q15, demoMem_q16, demoMem_q17, demoMem_q18, demoMem_q19, demoMem_q20, demoMem_q21, demoMem_q22, demoMem_q23, demoMem_q24, demoMem_q25, demoMem_q26, demoMem_q27, demoMem_q28, demoMem_q29, demoMem_q30, demoMem_q31, demoMem_q32, demoMem_q33, demoMem_q34, demoMem_q35, demoMem_q36, demoMem_q37, demoMem_q38, demoMem_q39, demoMem_q40]

theorem demo_step50 : TinyVM.step ⟨demoMem, [7,10,1,4294967293,0,0,0,0], 35, true, 50⟩ = (⟨demoMem, [7,10,1,4294967293,0,0,0,0], 12, true, 51⟩, [], none) := by
  simp [TinyVM.step, TinyVM.fetch_u8, TinyVM.fetch_u32, NUM_REGS, demoMod12, demoMod40, demoMem_q0, demoMem_q1, demoMem_q2, demoMem_q3, demoMem_q4, demoMem_q5, demoMem_q6, demoMem_q7, demoMem_q8, demoMem_q9, demoMem_q10, demoMem_q11, demoMem_q12, demoMem_q13, demoMem_q14, demoMem_q15, demoMem_q16, demoMem_q17, demoMem_q18, demoMem_q19, demoMem_q20, demoMem_q21, demoMem_q22, demoMem_q23, demoMem_q24, demoMem_q25, demoMem_q26, demoMem_q27, demoMem_q28, demoMem_q29, demoMem_q30, demoMem_q31, demoMem_q32, demoMem_q33, demoMem_q34, demoMem_q35, demoMem_q36, demoMem_q37, demoMem_q38, demoMem_q39, demoMem_q40]

theorem demo_step51 : TinyVM.step ⟨demoMem, [7,10,1,4294967293,0,0,0,0], 12, true, 51⟩ = (⟨demoMem, [7,10,1,4294967293,0,0,0,0], 14, true, 52⟩, [Line.out "7"], none) := by
  simp [TinyVM.step, TinyVM.fetch_u8, TinyVM.fetch_u32, NUM_REGS, demoMod12, demoMod40, demoMem_q0, demoMem_q1, demoMem_q2, demoMem_q3, demoMem_q4, demoMem_q5, demoMem_q6, demoMem_q7, demoMem_q8, demoMem_q9, demoMem_q10, demoMem_q11, demoMem_q12, demoMem_q13, demoMem_q14, demoMem_q15, demoMem_q16, demoMem_q17, demoMem_q18, demoMem_q19, demoMem_q20, demoMem_q21, demoMem_q22, demoMem_q23, demoMem_q24, demoMem_q25, demoMem_q26, demoMem_q27, demoMem_q28, demoMem_q29, demoMem_q30, demoMem_q31, demoMem_q32, demoMem_q33, demoMem_q34, demoMem_q35, demoMem_q36, demoMem_q37, demoMem_q38, demoMem_q39, demoMem_q40, natStr7]

theorem demo_step52 : TinyVM.step ⟨demoMem, [7,10,1,4294967293,0,0,0,0], 14, true, 52⟩ = (⟨demoMem, [7,10,1,4294967293,0,0,0,0], 20, true, 53⟩, [], none) := by
  simp [TinyVM.step, TinyVM.fetch_u8, TinyVM.fetch_u32, NUM_REGS, demoMod12, demoMod40, demoMem_q0, demoMem_q1, demoMem_q2, demoMem_q3, demoMem_q4, demoMem_q5, demoMem_q6, demoMem_q7, demoMem_q8, demoMem_q9, demoMem_q10, demoMem_q11, demoMem_q12, demoMem_q13, demoMem_q14, demoMem_q15, demoMem_q16, demoMem_q17, demoMem_q18, demoMem_q19, demoMem_q20, demoMem_q21, demoMem_q22, demoMem_q23, demoMem_q24, demoMem_q25, demoMem_q26, demoMem_q27, demoMem_q28, demoMem_q29, demoMem_q30, demoMem_q31, demoMem_q32, demoMem_q33, demoMem_q34, demoMem_q35, demoMem_q36, demoMem_q37, demoMem_q38, demoMem_q39, demoMem_q40]

theorem demo_step53 : TinyVM.step ⟨demoMem, [7,10,1,4294967293,0,0,0,0], 20, true, 53⟩ = (⟨demoMem, [8,10,1,4294967293,0,0,0,0], 23, true, 54⟩, [], none) := by
  simp [TinyVM.step, TinyVM.fetch_u8, TinyVM.fetch_u32, NUM_REGS, demoMod12, demoMod40, demoMem_q0, demoMem_q1, demoMem_q2, demoMem_q3, demoMem_q4, demoMem_q5, demoMem_q6, demoMem_q7, demoMem_q8, demoMem_q9, demoMem_q10, demoMem_q11, demoMem_q12, demoMem_q13, demoMem_q14, demoMem_q15, demoMem_q16, demoMem_q17, demoMem_q18, demoMem_q19, demoMem_q20, demoMem_q21, demoMem_q22, demoMem_q23, demoMem_q24, demoMem_q25, demoMem_q26, demoMem_q27, demoMem_q28, demoMem_q29, demoMem_q30, demoMem_q31, demoMem_q32, demoMem_q33, demoMem_q34, demoMem_q35, demoMem_q36, demoMem_q37, demoMem_q38, demoMem_q39, demoMem_q40]

theorem demo_step54 : TinyVM.step ⟨demoMem, [8,10,1,4294967293,0,0,0,0], 23, true, 54⟩ = (⟨demoMem, [8,10,1,8,0,0,0,0], 26, true, 55⟩, [], none) := by
  simp [TinyVM.step, TinyVM.fetch_u8, TinyVM.fetch_u32, NUM_REGS, demoMod12, demoMod40, demoMem_q0, demoMem_q1, demoMem_q2, demoMem_q3, demoMem_q4, demoMem_q5, demoMem_q6, demoMem_q7, demoMem_q8, demoMem_q9, demoMem_q10, demoMem_q11, demoMem_q12, demoMem_q13, demoMem_q14, demoMem_q15, demoMem_q16, demoMem_q17, demoMem_q18, demoMem_q19, demoMem_q20, demoMem_q21, demoMem_q22, demoMem_q23, demoMem_q24, demoMem_q25, demoMem_q26, demoMem_q27, demoMem_q28, demoMem_q29, demoMem_q30, demoMem_q31, demoMem_q32, demoMem_q33, demoMem_q34, demoMem_q35, demoMem_q36, demoMem_q37, demoMem_q38, demoMem_q39, demoMem_q40]

theorem demo_step55 : TinyVM.step ⟨demoMem, [8,10,1,8,0,0,0,0], 26, true, 55⟩ = (⟨demoMem, [8,10,1,4294967294,0,0,0,0], 29, true, 56⟩, [], none) := by
  simp [TinyVM.step, TinyVM.fetch_u8, TinyVM.fetch_u32, NUM_REGS, demoMod12, demoMod40, demoMem_q0, demoMem_q1, demoMem_q2, demoMem_q3, demoMem_q4, demoMem_q5, demoMem_q6, demoMem_q7, demoMem_q8, demoMem_q9, demoMem_q10, demoMem_q11, demoMem_q12, demoMem_q13, demoMem_q14, demoMem_q15, demoMem_q16, demoMem_q17, demoMem_q18, demoMem_q19, demoMem_q20, demoMem_q21, demoMem_q22, demoMem_q23, demoMem_q24, demoMem_q25, demoMem_q26, demoMem_q27, demoMem_q28, demoMem_q29, demoMem_q30, demoMem_q31, demoMem_q32, demoMem_q33, demoMem_q34, demoMem_q35, demoMem_q36, demoMem_q37, demoMem_q38, demoMem_q39, demoMem_q40]

theorem demo_step56 : TinyVM.step ⟨demoMem, [8,10,1,4294967294,0,0,0,0], 29, true, 56⟩ = (⟨demoMem, [8,10,1,4294967294,0,0,0,0], 35, true, 57⟩, [], none) := by
  simp [TinyVM.step, TinyVM.fetch_u8, TinyVM.fetch_u32, NUM_REGS, demoMod12, demoMod40, demoMem_q0, demoMem_q1, demoMem_q2, demoMem_q3, demoMem_q4, demoMem_q5, demoMem_q6, demoMem_q7, demoMem_q8, demoMem_q9, demoMem_q10, demoMem_q11, demoMem_q12, demoMem_q13, demoMem_q14, demoMem_q15, demoMem_q16, demoMem_q17, demoMem_q18, demoMem_q19, demoMem_q20, demoMem_q21, demoMem_q22, demoMem_q23, demoMem_q24, demoMem_q25, demoMem_q26, demoMem_q27, demoMem_q28, demoMem_q29, demoMem_q30, demoMem_q31, demoMem_q32, demoMem_q33, demoMem_q34, demoMem_q35, demoMem_q36, demoMem_q37, demoMem_q38, demoMem_q39, demoMem_q40]

theorem demo_step57 : TinyVM.step ⟨demoMem, [8,10,1,4294967294,0,0,0,0], 35, true, 57⟩ = (⟨demoMem, [8,10,1,4294967294,0,0,0,0], 12, true, 58⟩, [], none) := by
  simp [TinyVM.step, TinyVM.fetch_u8, TinyVM.fetch_u32, NUM_REGS, demoMod12, demoMod40, demoMem_q0, demoMem_q1, demoMem_q2, demoMem_q3, demoMem_q4, demoMem_q5, demoMem_q6, demoMem_q7, demoMem_q8, demoMem_q9, demoMem_q10, demoMem_q11, demoMem_q12, demoMem_q13, demoMem_q14, demoMem_q15, demoMem_q16, demoMem_q17, demoMem_q18, demoMem_q19, demoMem_q20, demoMem_q21, demoMem_q22, demoMem_q23, demoMem_q24, demoMem_q25, demoMem_q26, demoMem_q27, demoMem_q28, demoMem_q29, demoMem_q30, demoMem_q31, demoMem_q32, demoMem_q33, demoMem_q34, demoMem_q35, demoMem_q36, demoMem_q37, demoMem_q38, demoMem_q39, demoMem_q40]

theorem demo_step58 : TinyVM.step ⟨demoMem, [8,10,1,4294967294,0,0,0,0], 12, true, 58⟩ = (⟨demoMem, [8,10,1,4294967294,0,0,0,0], 14, true, 59⟩, [Line.out "8"], none) := by
  simp [TinyVM.step, TinyVM.fetch_u8, TinyVM.fetch_u32, NUM_REGS, demoMod12, demoMod40, demoMem_q0, demoMem_q1, demoMem_q2, demoMem_q3, demoMem_q4, demoMem_q5, demoMem_q6, demoMem_q7, demoMem_q8, demoMem_q9, demoMem_q10, demoMem_q11, demoMem_q12, demoMem_q13, demoMem_q14, demoMem_q15, demoMem_q16, demoMem_q17, demoMem_q18, demoMem_q19, demoMem_q20, demoMem_q21, demoMem_q22, demoMem_q23, demoMem_q24, demoMem_q25, demoMem_q26, demoMem_q27, demoMem_q28, demoMem_q29, demoMem_q30, demoMem_q31, demoMem_q32, demoMem_q33, demoMem_q34, demoMem_q35, demoMem_q36, demoMem_q37, demoMem_q38, demoMem_q39, demoMem_q40, natStr8]

theorem demo_step59 : TinyVM.step ⟨demoMem, [8,10,1,4294967294,0,0,0,0], 14, true, 59⟩ = (⟨demoMem, [8,10,1,4294967294,0,0,0,0], 20, true, 60⟩, [], none) := by
  simp [TinyVM.step, TinyVM.fetch_u8, TinyVM.fetch_u32, NUM_REGS, demoMod12, demoMod40, demoMem_q0, demoMem_q1, demoMem_q2, demoMem_q3, demoMem_q4, demoMem_q5, demoMem_q6, demoMem_q7, demoMem_q8, demoMem_q9, demoMem_q10, demoMem_q11, demoMem_q12, demoMem_q13, demoMem_q14, demoMem_q15, demoMem_q16, demoMem_q17, demoMem_q18, demoMem_q19, demoMem_q20, demoMem_q21, demoMem_q22, demoMem_q23, demoMem_q24, demoMem_q25, demoMem_q26, demoMem_q27, demoMem_q28, demoMem_q29, demoMem_q30, demoMem_q31, demoMem_q32, demoMem_q33, demoMem_q34, demoMem_q35, demoMem_q36, demoMem_q37, demoMem_q38, demoMem_q39, demoMem_q40]

theorem demo_step60 : TinyVM.step ⟨demoMem, [8,10,1,4294967294,0,0,0,0], 20, true, 60⟩ = (⟨demoMem, [9,10,1,4294967294,0,0,0,0], 23, true, 61⟩, [], none) := by
  simp [TinyVM.step, TinyVM.fetch_u8, TinyVM.fetch_u32, NUM_REGS, demoMod12, demoMod40, demoMem_q0, demoMem_q1, demoMem_q2, demoMem_q3, demoMem_q4, demoMem_q5, demoMem_q6, demoMem_q7, demoMem_q8, demoMem_q9, demoMem_q10, demoMem_q11, demoMem_q12, demoMem_q13, demoMem_q14, demoMem_q15, demoMem_q16, demoMem_q17, demoMem_q18, demoMem_q19, demoMem_q20, demoMem_q21, demoMem_q22, demoMem_q23, demoMem_q24, demoMem_q25, demoMem_q26, demoMem_q27, demoMem_q28, demoMem_q29, demoMem_q30, demoMem_q31, demoMem_q32, demoMem_q33, demoMem_q34, demoMem_q35, demoMem_q36, demoMem_q37, demoMem_q38, demoMem_q39, demoMem_q40]

theorem demo_step61 : TinyVM.step ⟨demoMem, [9,10,1,4294967294,0,0,0,0], 23, true, 61⟩ = (⟨demoMem, [9,10,1,9,0,0,0,0], 26, true, 62⟩, [], none) := by
  simp [TinyVM.step, TinyVM.fetch_u8, TinyVM.fetch_u32, NUM_REGS, demoMod12, demoMod40, demoMem_q0, demoMem_q1, demoMem_q2, demoMem_q3, demoMem_q4, demoMem_q5, demoMem_q6, demoMem_q7, demoMem_q8, demoMem_q9, demoMem_q10, demoMem_q11, demoMem_q12, demoMem_q13, demoMem_q14, demoMem_q15, demoMem_q16, demoMem_q17, demoMem_q18, demoMem_q19, demoMem_q20, demoMem_q21, demoMem_q22, demoMem_q23, demoMem_q24, demoMem_q25, demoMem_q26, demoMem_q27, demoMem_q28, demoMem_q29, demoMem_q30, demoMem_q31, demoMem_q32, demoMem_q33, demoMem_q34, demoMem_q35, demoMem_q36, demoMem_q37, demoMem_q38, demoMem_q39, demoMem_q40]

theorem demo_step62 : TinyVM.step ⟨demoMem, [9,10,1,9,0,0,0,0], 26, true, 62⟩ = (⟨demoMem, [9,10,1,4294967295,0,0,0,0], 29, true, 63⟩, [], none) := by
  simp [TinyVM.step, TinyVM.fetch_u8, TinyVM.fetch_u32, NUM_REGS, demoMod12, demoMod40, demoMem_q0, demoMem_q1, demoMem_q2, demoMem_q3, demoMem_q4, demoMem_q5, demoMem_q6, demoMem_q7, demoMem_q8, demoMem_q9, demoMem_q10, demoMem_q11, demoMem_q12, demoMem_q13, demoMem_q14, demoMem_q15, demoMem_q16, demoMem_q17, demoMem_q18, demoMem_q19, demoMem_q20, demoMem_q21, demoMem_q22, demoMem_q23, demoMem_q24, demoMem_q25, demoMem_q26, demoMem_q27, demoMem_q28, demoMem_q29, demoMem_q30, demoMem_q31, demoMem_q32, demoMem_q33, demoMem_q34, demoMem_q35, demoMem_q36, demoMem_q37, demoMem_q38, demoMem_q39, demoMem_q40]

theorem demo_step63 : TinyVM.step ⟨demoMem, [9,10,1,4294967295,0,0,0,0], 29, true, 63⟩ = (⟨demoMem, [9,10,1,4294967295,0,0,0,0], 35, true, 64⟩, [], none) := by
  simp [TinyVM.step, TinyVM.fetch_u8, TinyVM.fetch_u32, NUM_REGS, demoMod12, demoMod40, demoMem_q0, demoMem_q1, demoMem_q2, demoMem_q3, demoMem_q4, demoMem_q5, demoMem_q6, demoMem_q7, demoMem_q8, demoMem_q9, demoMem_q10, demoMem_q11, demoMem_q12, demoMem_q13, demoMem_q14, demoMem_q15, demoMem_q16, demoMem_q17, demoMem_q18, demoMem_q19, demoMem_q20, demoMem_q21, demoMem_q22, demoMem_q23, demoMem_q24, demoMem_q25, demoMem_q26, demoMem_q27, demoMem_q28, demoMem_q29, demoMem_q30, demoMem_q31, demoMem_q32, demoMem_q33, demoMem_q34, demoMem_q35, demoMem_q36, demoMem_q37, demoMem_q38, demoMem_q39, demoMem_q40]

theorem demo_step64 : TinyVM.step ⟨demoMem, [9,10,1,4294967295,0,0,0,0], 35, true, 64⟩ = (⟨demoMem, [9,10,1,4294967295,0,0,0,0], 12, true, 65⟩, [], none) := by
  simp [TinyVM.step, TinyVM.fetch_u8, TinyVM.fetch_u32, NUM_REGS, demoMod12, demoMod40, demoMem_q0, demoMem_q1, demoMem_q2, demoMem_q3, demoMem_q4, demoMem_q5, demoMem_q6, demoMem_q7, demoMem_q8, demoMem_q9, demoMem_q10, demoMem_q11, demoMem_q12, demoMem_q13, demoMem_q14, demoMem_q15, demoMem_q16, demoMem_q17, demoMem_q18, demoMem_q19, demoMem_q20, demoMem_q21, demoMem_q22, demoMem_q23, demoMem_q24, demoMem_q25, demoMem_q26, demoMem_q27, demoMem_q28, demoMem_q29, demoMem_q30, demoMem_q31, demoMem_q32, demoMem_q33, demoMem_q34, demoMem_q35, demoMem_q36, demoMem_q37, demoMem_q38, demoMem_q39, demoMem_q40]

theorem demo_step65 : TinyVM.step ⟨demoMem, [9,10,1,4294967295,0,0,0,0], 12, true, 65⟩ = (⟨demoMem, [9,10,1,4294967295,0,0,0,0], 14, true, 66⟩, [Line.out "9"], none) := by
  simp [TinyVM.step, TinyVM.fetch_u8, TinyVM.fetch_u32, NUM_REGS, demoMod12, demoMod40, demoMem_q0, demoMem_q1, demoMem_q2, demoMem_q3, demoMem_q4, demoMem_q5, demoMem_q6, demoMem_q7, demoMem_q8, demoMem_q9, demoMem_q10, demoMem_q11, demoMem_q12, demoMem_q13, demoMem_q14, demoMem_q15, demoMem_q16, demoMem_q17, demoMem_q18, demoMem_q19, demoMem_q20, demoMem_q21, demoMem_q22, demoMem_q23, demoMem_q24, demoMem_q25, demoMem_q26, demoMem_q27, demoMem_q28, demoMem_q29, demoMem_q30, demoMem_q31, demoMem_q32, demoMem_q33, demoMem_q34, demoMem_q35, demoMem_q36, demoMem_q37, demoMem_q38, demoMem_q39, demoMem_q40, natStr9]

theorem demo_step66 : TinyVM.step ⟨demoMem, [9,10,1,4294967295,0,0,0,0], 14, true, 66⟩ = (⟨demoMem, [9,10,1,4294967295,0,0,0,0], 20, true, 67⟩, [], none) := by
  simp [TinyVM.step, TinyVM.fetch_u8, TinyVM.fetch_u32, NUM_REGS, demoMod12, demoMod40, demoMem_q0, demoMem_q1, demoMem_q2, demoMem_q3, demoMem_q4, demoMem_q5, demoMem_q6, demoMem_q7, demoMem_q8, demoMem_q9, demoMem_q10, demoMem_q11, demoMem_q12, demoMem_q13, demoMem_q14, demoMem_q15, demoMem_q16, demoMem_q17, demoMem_q18, demoMem_q19, demoMem_q20, demoMem_q21, demoMem_q22, demoMem_q23, demoMem_q24, demoMem_q25, demoMem_q26, demoMem_q27, demoMem_q28, demoMem_q29, demoMem_q30, demoMem_q31, demoMem_q32, demoMem_q33, demoMem_q34, demoMem_q35, demoMem_q36, demoMem_q37, demoMem_q38, demoMem_q39, demoMem_q40]

theorem demo_step67 : TinyVM.step ⟨demoMem, [9,10,1,4294967295,0,0,0,0], 20, true, 67⟩ = (⟨demoMem, [10,10,1,4294967295,0,0,0,0], 23, true, 68⟩, [], none) := by
  simp [TinyVM.step, TinyVM.fetch_u8, TinyVM.fetch_u32, NUM_REGS, demoMod12, demoMod40, demoMem_q0, demoMem_q1, demoMem_q2, demoMem_q3, demoMem_q4, demoMem_q5, demoMem_q6, demoMem_q7, demoMem_q8, demoMem_q9, demoMem_q10, demoMem_q11, demoMem_q12, demoMem_q13, demoMem_q14, demoMem_q15, demoMem_q16, demoMem_q17, demoMem_q18, demoMem_q19, demoMem_q20, demoMem_q21, demoMem_q22, demoMem_q23, demoMem_q24, demoMem_q25, demoMem_q26, demoMem_q27, demoMem_q28, demoMem_q29, demoMem_q30, demoMem_q31, demoMem_q32, demoMem_q33, demoMem_q34, demoMem_q35, demoMem_q36, demoMem_q37, demoMem_q38, demoMem_q39, demoMem_q40]

theorem demo_step68 : TinyVM.step ⟨demoMem, [10,10,1,4294967295,0,0,0,0], 23, true, 68⟩ = (⟨demoMem, [10,10,1,10,0,0,0,0], 26, true, 69⟩, [], none) := by
  simp [TinyVM.step, TinyVM.fetch_u8, TinyVM.fetch_u32, NUM_REGS, demoMod12, demoMod40, demoMem_q0, demoMem_q1, demoMem_q2, demoMem_q3, demoMem_q4, demoMem_q5, demoMem_q6, demoMem_q7, demoMem_q8, demoMem_q9, demoMem_q10, demoMem_q11, demoMem_q12, demoMem_q13, demoMem_q14, demoMem_q15, demoMem_q16, demoMem_q17, demoMem_q18, demoMem_q19, demoMem_q20, demoMem_q21, demoMem_q22, demoMem_q23, demoMem_q24, demoMem_q25, demoMem_q26, demoMem_q27, demoMem_q28, demoMem_q29, demoMem_q30, demoMem_q31, demoMem_q32, demoMem_q33, demoMem_q34, demoMem_q35, demoMem_q36, demoMem_q37, demoMem_q38, demoMem_q39, demoMem_q40]

theorem demo_step69 : TinyVM.step ⟨demoMem, [10,10,1,10,0,0,0,0], 26, true, 69⟩ = (⟨demoMem, [10,10,1,0,0,0,0,0], 29, true, 70⟩, [], none) := by
  simp [TinyVM.step, TinyVM.fetch_u8, TinyVM.fetch_u32, NUM_REGS, demoMod12, demoMod40, demoMem_q0, demoMem_q1, demoMem_q2, demoMem_q3, demoMem_q4, demoMem_q5, demoMem_q6, demoMem_q7, demoMem_q8, demoMem_q9, demoMem_q10, demoMem_q11, demoMem_q12, demoMem_q13, demoMem_q14, demoMem_q15, demoMem_q16, demoMem_q17, demoMem_q18, demoMem_q19, demoMem_q20, demoMem_q21, demoMem_q22, demoMem_q23, demoMem_q24, demoMem_q25, demoMem_q26, demoMem_q27, demoMem_q28, demoMem_q29, demoMem_q30, demoMem_q31, demoMem_q32, demoMem_q33, demoMem_q34, demoMem_q35, demoMem_q36, demoMem_q37, demoMem_q38, demoMem_q39, demoMem_q40]

theorem demo_step70 : TinyVM.step ⟨demoMem, [10,10,1,0,0,0,0,0], 29, true, 70⟩ = (⟨demoMem, [10,10,1,0,0,0,0,0], 40, true, 71⟩, [], none) := by
  simp [TinyVM.step, TinyVM.fetch_u8, TinyVM.fetch_u32, NUM_REGS, demoMod12, demoMod40, demoMem_q0, demoMem_q1, demoMem_q2, demoMem_q3, demoMem_q4, demoMem_q5, demoMem_q6, demoMem_q7, demoMem_q8, demoMem_q9, demoMem_q10, demoMem_q11, demoMem_q12, demoMem_q13, demoMem_q14, demoMem_q15, demoMem_q16, demoMem_q17, demoMem_q18, demoMem_q19, demoMem_q20, demoMem_q21, demoMem_q22, demoMem_q23, demoMem_q24, demoMem_q25, demoMem_q26, demoMem_q27, demoMem_q28, demoMem_q29, demoMem_q30, demoMem_q31, demoMem_q32, demoMem_q33, demoMem_q34, demoMem_q35, demoMem_q36, demoMem_q37, demoMem_q38, demoMem_q39, demoMem_q40]

theorem demo_step71 : TinyVM.step ⟨demoMem, [10,10,1,0,0,0,0,0], 40, true, 71⟩ = (⟨demoMem, [10,10,1,0,0,0,0,0], 41, false, 72⟩, [], none) := by
  simp [TinyVM.step, TinyVM.fetch_u8, TinyVM.fetch_u32, NUM_REGS, demoMod12, demoMod40, demoMem_q0, demoMem_q1, demoMem_q2, demoMem_q3, demoMem_q4, demoMem_q5, demoMem_q6, demoMem_q7, demoMem_q8, demoMem_q9, demoMem_q10, demoMem_q11, demoMem_q12, demoMem_q13, demoMem_q14, demoMem_q15, demoMem_q16, demoMem_q17, demoMem_q18, demoMem_q19, demoMem_q20, demoMem_q21, demoMem_q22, demoMem_q23, demoMem_q24, demoMem_q25, demoMem_q26, demoMem_q27, demoMem_q28, demoMem_q29, demoMem_q30, demoMem_q31, demoMem_q32, demoMem_q33, demoMem_q34, demoMem_q35, demoMem_q36, demoMem_q37, demoMem_q38, demoMem_q39, demoMem_q40]

theorem demo_loop72 : TinyVM.runLoop ⟨demoMem, [10,10,1,0,0,0,0,0], 41, false, 72⟩ 9999928 = ⟨⟨demoMem, [10,10,1,0,0,0,0,0], 41, false, 72⟩, 0, [], none⟩ := by
  rw [runLoop_pos _ _ (by norm_num)]; simp

theorem demo_loop71 : TinyVM.runLoop ⟨demoMem, [10,10,1,0,0,0,0,0], 40, true, 71⟩ 9999929 = ⟨⟨demoMem, [10,10,1,0,0,0,0,0], 41, false, 72⟩, 1, [], none⟩ := by
  rw [runLoop_pos _ _ (by norm_num)]; simp [demo_step71, demo_loop72]

theorem demo_loop70 : TinyVM.runLoop ⟨demoMem, [10,10,1,0,0,0,0,0], 29, true, 70⟩ 9999930 = ⟨⟨demoMem, [10,10,1,0,0,0,0,0], 41, false, 72⟩, 2, [], none⟩ := by
  rw [runLoop_pos _ _ (by norm_num)]; simp [demo_step70, demo_loop71]

theorem demo_loop69 : TinyVM.runLoop ⟨demoMem, [10,10,1,10,0,0,0,0], 26, true, 69⟩ 9999931 = ⟨⟨demoMem, [10,10,1,0,0,0,0,0], 41, false, 72⟩, 3, [], none⟩ := by
  rw [runLoop_pos _ _ (by norm_num)]; simp [demo_step69, demo_loop70]

theorem demo_loop68 : TinyVM.runLoop ⟨demoMem, [10,10,1,4294967295,0,0,0,0], 23, true, 68⟩ 9999932 = ⟨⟨demoMem, [10,10,1,0,0,0,0,0], 41, false, 72⟩, 4, [], none⟩ := by
  rw [runLoop_pos _ _ (by norm_num)]; simp [demo_step68, demo_loop69]

theorem demo_loop67 : TinyVM.runLoop ⟨demoMem, [9,10,1,4294967295,0,0,0,0], 20, true, 67⟩ 9999933 = ⟨⟨demoMem, [10,10,1,0,0,0,0,0], 41, false, 72⟩, 5, [], none⟩ := by
  rw [runLoop_pos _ _ (by norm_num)]; simp [demo_step67, demo_loop68]

theorem demo_loop66 : TinyVM.runLoop ⟨demoMem, [9,10,1,4294967295,0,0,0,0], 14, true, 66⟩ 9999934 = ⟨⟨demoMem, [10,10,1,0,0,0,0,0], 41, false, 72⟩, 6, [], none⟩ := by
  rw [runLoop_pos _ _ (by norm_num)]; simp [demo_step66, demo_loop67]

theorem demo_loop65 : TinyVM.runLoop ⟨demoMem, [9,10,1,4294967295,0,0,0,0], 12, true, 65⟩ 9999935 = ⟨⟨demoMem, [10,10,1,0,0,0,0,0], 41, false, 72⟩, 7, [Line.out "9"], none⟩ := by
  rw [runLoop_pos _ _ (by norm_num)]; simp [demo_step65, demo_loop66]

theorem demo_loop64 : TinyVM.runLoop ⟨demoMem, [9,10,1,4294967295,0,0,0,0], 35, true, 64⟩ 9999936 = ⟨⟨demoMem, [10,10,1,0,0,0,0,0], 41, false, 72⟩, 8, [Line.out "9"], none⟩ := by
  rw [runLoop_pos _ _ (by norm_num)]; simp [demo_step64, demo_loop65]

theorem demo_loop63 : TinyVM.runLoop ⟨demoMem, [9,10,1,4294967295,0,0,0,0], 29, true, 63⟩ 9999937 = ⟨⟨demoMem, [10,10,1,0,0,0,0,0], 41, false, 72⟩, 9, [Line.out "9"], none⟩ := by
  rw [runLoop_pos _ _ (by norm_num)]; simp [demo_step63, demo_loop64]

theorem demo_loop62 : TinyVM.runLoop ⟨demoMem, [9,10,1,9,0,0,0,0], 26, true, 62⟩ 9999938 = ⟨⟨demoMem, [10,10,1,0,0,0,0,0], 41, false, 72⟩, 10, [Line.out "9"], none⟩ := by
  rw [runLoop_pos _ _ (by norm_num)]; simp [demo_step62, demo_loop63]

theorem demo_loop61 : TinyVM.runLoop ⟨demoMem, [9,10,1,4294967294,0,0,0,0], 23, true, 61⟩ 9999939 = ⟨⟨demoMem, [10,10,1,0,0,0,0,0], 41, false, 72⟩, 11, [Line.out "9"], none⟩ := by
  rw [runLoop_pos _ _ (by norm_num)]; simp [demo_step61, demo_loop62]

theorem demo_loop60 : TinyVM.runLoop ⟨demoMem, [8,10,1,4294967294,0,0,0,0], 20, true, 60⟩ 9999940 = ⟨⟨demoMem, [10,10,1,0,0,0,0,0], 41, false, 72⟩, 12, [Line.out "9"], none⟩ := by
  rw [runLoop_pos _ _ (by norm_num)]; simp [demo_step60, demo_loop61]

theorem demo_loop59 : TinyVM.runLoop ⟨demoMem, [8,10,1,4294967294,0,0,0,0], 14, true, 59⟩ 9999941 = ⟨⟨demoMem, [10,10,1,0,0,0,0,0], 41, false, 72⟩, 13, [Line.out "9"], none⟩ := by
  rw [runLoop_pos _ _ (by norm_num)]; simp [demo_step59, demo_loop60]

theorem demo_loop58 : TinyVM.runLoop ⟨demoMem, [8,10,1,4294967294,0,0,0,0], 12, true, 58⟩ 9999942 = ⟨⟨demoMem, [10,10,1,0,0,0,0,0], 41, false, 72⟩, 14, [Line.out "8", Line.out "9"], none⟩ := by
  rw [runLoop_pos _ _ (by norm_num)]; simp [demo_step58, demo_loop59]

theorem demo_loop57 : TinyVM.runLoop ⟨demoMem, [8,10,1,4294967294,0,0,0,0], 35, true, 57⟩ 9999943 = ⟨⟨demoMem, [10,10,1,0,0,0,0,0], 41, false, 72⟩, 15, [Line.out "8", Line.out "9"], none⟩ := by
  rw [runLoop_pos _ _ (by norm_num)]; simp [demo_step57, demo_loop58]

theorem demo_loop56 : TinyVM.runLoop ⟨demoMem, [8,10,1,4294967294,0,0,0,0], 29, true, 56⟩ 9999944 = ⟨⟨demoMem, [10,10,1,0,0,0,0,0], 41, false, 72⟩, 16, [Line.out "8", Line.out "9"], none⟩ := by
  rw [runLoop_pos _ _ (by norm_num)]; simp [demo_step56, demo_loop57]

theorem demo_loop55 : TinyVM.runLoop ⟨demoMem, [8,10,1,8,0,0,0,0], 26, true, 55⟩ 9999945 = ⟨⟨demoMem, [10,10,1,0,0,0,0,0], 41, false, 72⟩, 17, [Line.out "8", Line.out "9"], none⟩ := by
  rw [runLoop_pos _ _ (by norm_num)]; simp [demo_step55, demo_loop56]

theorem demo_loop54 : TinyVM.runLoop ⟨demoMem, [8,10,1,4294967293,0,0,0,0], 23, true, 54⟩ 9999946 = ⟨⟨demoMem, [10,10,1,0,0,0,0,0], 41, false, 72⟩, 18, [Line.out "8", Line.out "9"], none⟩ := by
  rw [runLoop_pos _ _ (by norm_num)]; simp [demo_step54, demo_loop55]

theorem demo_loop53 : TinyVM.runLoop ⟨demoMem, [7,10,1,4294967293,0,0,0,0], 20, true, 53⟩ 9999947 = ⟨⟨demoMem, [10,10,1,0,0,0,0,0], 41, false, 72⟩, 19, [Line.out "8", Line.out "9"], none⟩ := by
  rw [runLoop_pos _ _ (by norm_num)]; simp [demo_step53, demo_loop54]

theorem demo_loop52 : TinyVM.runLoop ⟨demoMem, [7,10,1,4294967293,0,0,0,0], 14, true, 52⟩ 9999948 = ⟨⟨demoMem, [10,10,1,0,0,0,0,0], 41, false, 72⟩, 20, [Line.out "8", Line.out "9"], none⟩ := by
  rw [runLoop_pos _ _ (by norm_num)]; simp [demo_step52, demo_loop53]

theorem demo_loop51 : TinyVM.runLoop ⟨demoMem, [7,10,1,4294967293,0,0,0,0], 12, true, 51⟩ 9999949 = ⟨⟨demoMem, [10,10,1,0,0,0,0,0], 41, false, 72⟩, 21, [Line.out "7", Line.out "8", Line.out "9"], none⟩ := by
  rw [runLoop_pos _ _ (by norm_num)]; simp [demo_step51, demo_loop52]

theorem demo_loop50 : TinyVM.runLoop ⟨demoMem, [7,10,1,4294967293,0,0,0,0], 35, true, 50⟩ 9999950 = ⟨⟨demoMem, [10,10,1,0,0,0,0,0], 41, false, 72⟩, 22, [Line.out "7", Line.out "8", Line.out "9"], none⟩ := by
  rw [runLoop_pos _ _ (by norm_num)]; simp [demo_step50, demo_loop51]

theorem demo_loop49 : TinyVM.runLoop ⟨demoMem, [7,10,1,4294967293,0,0,0,0], 29, true, 49⟩ 9999951 = ⟨⟨demoMem, [10,10,1,0,0,0,0,0], 41, false, 72⟩, 23, [Line.out "7", Line.out "8", Line.out "9"], none⟩ := by
  rw [runLoop_pos _ _ (by norm_num)]; simp [demo_step49, demo_loop50]

theorem demo_loop48 : TinyVM.runLoop ⟨demoMem, [7,10,1,7,0,0,0,0], 26, true, 48⟩ 9999952 = ⟨⟨demoMem, [10,10,1,0,0,0,0,0], 41, false, 72⟩, 24, [Line.out "7", Line.out "8", Line.out "9"], none⟩ := by
  rw [runLoop_pos _ _ (by norm_num)]; simp [demo_step48, demo_loop49]

theorem demo_loop47 : TinyVM.runLoop ⟨demoMem, [7,10,1,4294967292,0,0,0,0], 23, true, 47⟩ 9999953 = ⟨⟨demoMem, [10,10,1,0,0,0,0,0], 41, false, 72⟩, 25, [Line.out "7", Line.out "8", Line.out "9"], none⟩ := by
  rw [runLoop_pos _ _ (by norm_num)]; simp [demo_step47, demo_loop48]

theorem demo_loop46 : TinyVM.runLoop ⟨demoMem, [6,10,1,4294967292,0,0,0,0], 20, true, 46⟩ 9999954 = ⟨⟨demoMem, [10,10,1,0,0,0,0,0], 41, false, 72⟩, 26, [Line.out "7", Line.out "8", Line.out "9"], none⟩ := by
  rw [runLoop_pos _ _ (by norm_num)]; simp [demo_step46, demo_loop47]

theorem demo_loop45 : TinyVM.runLoop ⟨demoMem, [6,10,1,4294967292,0,0,0,0], 14, true, 45⟩ 9999955 = ⟨⟨demoMem, [10,10,1,0,0,0,0,0], 41, false, 72⟩, 27, [Line.out "7", Line.out "8", Line.out "9"], none⟩ := by
  rw [runLoop_pos _ _ (by norm_num)]; simp [demo_step45, demo_loop46]

theorem demo_loop44 : TinyVM.runLoop ⟨demoMem, [6,10,1,4294967292,0,0,0,0], 12, true, 44⟩ 9999956 = ⟨⟨demoMem, [10,10,1,0,0,0,0,0], 41, false, 72⟩, 28, [Line.out "6", Line.out "7", Line.out "8", Line.out "9"], none⟩ := by
  rw [runLoop_pos _ _ (by norm_num)]; simp [demo_step44, demo_loop45]

theorem demo_loop43 : TinyVM.runLoop ⟨demoMem, [6,10,1,4294967292,0,0,0,0], 35, true, 43⟩ 9999957 = ⟨⟨demoMem, [10,10,1,0,0,0,0,0], 41, false, 72⟩, 29, [Line.out "6", Line.out "7", Line.out "8", Line.out "9"], none⟩ := by
  rw [runLoop_pos _ _ (by norm_num)]; simp [demo_step43, demo_loop44]

theorem demo_loop42 : TinyVM.runLoop ⟨demoMem, [6,10,1,4294967292,0,0,0,0], 29, true, 42⟩ 9999958 = ⟨⟨demoMem, [10,10,1,0,0,0,0,0], 41, false, 72⟩, 30, [Line.out "6", Line.out "7", Line.out "8", Line.out "9"], none⟩ := by
  rw [runLoop_pos _ _ (by norm_num)]; simp [demo_step42, demo_loop43]

theorem demo_loop41 : TinyVM.runLoop ⟨demoMem, [6,10,1,6,0,0,0,0], 26, true, 41⟩ 9999959 = ⟨⟨demoMem, [10,10,1,0,0,0,0,0], 41, false, 72⟩, 31, [Line.out "6", Line.out "7", Line.out "8", Line.out "9"], none⟩ := by
  rw [runLoop_pos _ _ (by norm_num)]; simp [demo_step41, demo_loop42]

theorem demo_loop40 : TinyVM.runLoop ⟨demoMem, [6,10,1,4294967291,0,0,0,0], 23, true, 40⟩ 9999960 = ⟨⟨demoMem, [10,10,1,0,0,0,0,0], 41, false, 72⟩, 32, [Line.out "6", Line.out "7", Line.out "8", Line.out "9"], none⟩ := by
  rw [runLoop_pos _ _ (by norm_num)]; simp [demo_step40, demo_loop41]

theorem demo_loop39 : TinyVM.runLoop ⟨demoMem, [5,10,1,4294967291,0,0,0,0], 20, true, 39⟩ 9999961 = ⟨⟨demoMem, [10,10,1,0,0,0,0,0], 41, false, 72⟩, 33, [Line.out "6", Line.out "7", Line.out "8", Line.out "9"], none⟩ := by
  rw [runLoop_pos _ _ (by norm_num)]; simp [demo_step39, demo_loop40]

theorem demo_loop38 : TinyVM.runLoop ⟨demoMem, [5,10,1,4294967291,0,0,0,0], 14, true, 38⟩ 9999962 = ⟨⟨demoMem, [10,10,1,0,0,0,0,0], 41, false, 72⟩, 34, [Line.out "6", Line.out "7", Line.out "8", Line.out "9"], none⟩ := by
  rw [runLoop_pos _ _ (by norm_num)]; simp [demo_step38, demo_loop39]

theorem demo_loop37 : TinyVM.runLoop ⟨demoMem, [5,10,1,4294967291,0,0,0,0], 12, true, 37⟩ 9999963 = ⟨⟨demoMem, [10,10,1,0,0,0,0,0], 41, false, 72⟩, 35, [Line.out "5", Line.out "6", Line.out "7", Line.out "8", Line.out "9"], none⟩ := by
  rw [runLoop_pos _ _ (by norm_num)]; simp [demo_step37, demo_loop38]

theorem demo_loop36 : TinyVM.runLoop ⟨demoMem, [5,10,1,4294967291,0,0,0,0], 35, true, 36⟩ 9999964 = ⟨⟨demoMem, [10,10,1,0,0,0,0,0], 41, false, 72⟩, 36, [Line.out "5", Line.out "6", Line.out "7", Line.out "8", Line.out "9"], none⟩ := by
  rw [runLoop_pos _ _ (by norm_num)]; simp [demo_step36, demo_loop37]

theorem demo_loop35 : TinyVM.runLoop ⟨demoMem, [5,10,1,4294967291,0,0,0,0], 29, true, 35⟩ 9999965 = ⟨⟨demoMem, [10,10,1,0,0,0,0,0], 41, false, 72⟩, 37, [Line.out "5", Line.out "6", Line.out "7", Line.out "8", Line.out "9"], none⟩ := by
  rw [runLoop_pos _ _ (by norm_num)]; simp [demo_step35, demo_loop36]

theorem demo_loop34 : TinyVM.runLoop ⟨demoMem, [5,10,1,5,0,0,0,0], 26, true, 34⟩ 9999966 = ⟨⟨demoMem, [10,10,1,0,0,0,0,0], 41, false, 72⟩, 38, [Line.out "5", Line.out "6", Line.out "7", Line.out "8", Line.out "9"], none⟩ := by
  rw [runLoop_pos _ _ (by norm_num)]; simp [demo_step34, demo_loop35]

theorem demo_loop33 : TinyVM.runLoop ⟨demoMem, [5,10,1,4294967290,0,0,0,0], 23, true, 33⟩ 9999967 = ⟨⟨demoMem, [10,10,1,0,0,0,0,0], 41, false, 72⟩, 39, [Line.out "5", Line.out "6", Line.out "7", Line.out "8", Line.out "9"], none⟩ := by
  rw [runLoop_pos _ _ (by norm_num)]; simp [demo_step33, demo_loop34]

theorem demo_loop32 : TinyVM.runLoop ⟨demoMem, [4,10,1,4294967290,0,0,0,0], 20, true, 32⟩ 9999968 = ⟨⟨demoMem, [10,10,1,0,0,0,0,0], 41, false, 72⟩, 40, [Line.out "5", Line.out "6", Line.out "7", Line.out "8", Line.out "9"], none⟩ := by
  rw [runLoop_pos _ _ (by norm_num)]; simp [demo_step32, demo_loop33]

theorem demo_loop31 : TinyVM.runLoop ⟨demoMem, [4,10,1,4294967290,0,0,0,0], 14, true, 31⟩ 9999969 = ⟨⟨demoMem, [10,10,1,0,0,0,0,0], 41, false, 72⟩, 41, [Line.out "5", Line.out "6", Line.out "7", Line.out "8", Line.out "9"], none⟩ := by
  rw [runLoop_pos _ _ (by norm_num)]; simp [demo_step31, demo_loop32]

theorem demo_loop30 : TinyVM.runLoop ⟨demoMem, [4,10,1,4294967290,0,0,0,0], 12, true, 30⟩ 9999970 = ⟨⟨demoMem, [10,10,1,0,0,0,0,0], 41, false, 72⟩, 42, [Line.out "4", Line.out "5", Line.out "6", Line.out "7", Line.out "8", Line.out "9"], none⟩ := by
  rw [runLoop_pos _ _ (by norm_num)]; simp [demo_step30, demo_loop31]

theorem demo_loop29 : TinyVM.runLoop ⟨demoMem, [4,10,1,4294967290,0,0,0,0], 35, true, 29⟩ 9999971 = ⟨⟨demoMem, [10,10,1,0,0,0,0,0], 41, false, 72⟩, 43, [Line.out "4", Line.out "5", Line.out "6", Line.out "7", Line.out "8", Line.out "9"], none⟩ := by
  rw [runLoop_pos _ _ (by norm_num)]; simp [demo_step29, demo_loop30]

theorem demo_loop28 : TinyVM.runLoop ⟨demoMem, [4,10,1,4294967290,0,0,0,0], 29, true, 28⟩ 9999972 = ⟨⟨demoMem, [10,10,1,0,0,0,0,0], 41, false, 72⟩, 44, [Line.out "4", Line.out "5", Line.out "6", Line.out "7", Line.out "8", Line.out "9"], none⟩ := by
  rw [runLoop_pos _ _ (by norm_num)]; simp [demo_step28, demo_loop29]

theorem demo_loop27 : TinyVM.runLoop ⟨demoMem, [4,10,1,4,0,0,0,0], 26, true, 27⟩ 9999973 = ⟨⟨demoMem, [10,10,1,0,0,0,0,0], 41, false, 72⟩, 45, [Line.out "4", Line.out "5", Line.out "6", Line.out "7", Line.out "8", Line.out "9"], none⟩ := by
  rw [runLoop_pos _ _ (by norm_num)]; simp [demo_step27, demo_loop28]

theorem demo_loop26 : TinyVM.runLoop ⟨demoMem, [4,10,1,4294967289,0,0,0,0], 23, true, 26⟩ 9999974 = ⟨⟨demoMem, [10,10,1,0,0,0,0,0], 41, false, 72⟩, 46, [Line.out "4", Line.out "5", Line.out "6", Line.out "7", Line.out "8", Line.out "9"], none⟩ := by
  rw [runLoop_pos _ _ (by norm_num)]; simp [demo_step26, demo_loop27]

theorem demo_loop25 : TinyVM.runLoop ⟨demoMem, [3,10,1,4294967289,0,0,0,0], 20, true, 25⟩ 9999975 = ⟨⟨demoMem, [10,10,1,0,0,0,0,0], 41, false, 72⟩, 47, [Line.out "4", Line.out "5", Line.out "6", Line.out "7", Line.out "8", Line.out "9"], none⟩ := by
  rw [runLoop_pos _ _ (by norm_num)]; simp [demo_step25, demo_loop26]

theorem demo_loop24 : TinyVM.runLoop ⟨demoMem, [3,10,1,4294967289,0,0,0,0], 14, true, 24⟩ 9999976 = ⟨⟨demoMem, [10,10,1,0,0,0,0,0], 41, false, 72⟩, 48, [Line.out "4", Line.out "5", Line.out "6", Line.out "7", Line.out "8", Line.out "9"], none⟩ := by
  rw [runLoop_pos _ _ (by norm_num)]; simp [demo_step24, demo_loop25]

theorem demo_loop23 : TinyVM.runLoop ⟨demoMem, [3,10,1,4294967289,0,0,0,0], 12, true, 23⟩ 9999977 = ⟨⟨demoMem, [10,10,1,0,0,0,0,0], 41, false, 72⟩, 49, [Line.out "3", Line.out "4", Line.out "5", Line.out "6", Line.out "7", Line.out "8", Line.out "9"], none⟩ := by
  rw [runLoop_pos _ _ (by norm_num)]; simp [demo_step23, demo_loop24]

theorem demo_loop22 : TinyVM.runLoop ⟨demoMem, [3,10,1,4294967289,0,0,0,0], 35, true, 22⟩ 9999978 = ⟨⟨demoMem, [10,10,1,0,0,0,0,0], 41, false, 72⟩, 50, [Line.out "3", Line.out "4", Line.out "5", Line.out "6", Line.out "7", Line.out "8", Line.out "9"], none⟩ := by
  rw [runLoop_pos _ _ (by norm_num)]; simp [demo_step22, demo_loop23]

theorem demo_loop21 : TinyVM.runLoop ⟨demoMem, [3,10,1,4294967289,0,0,0,0], 29, true, 21⟩ 9999979 = ⟨⟨demoMem, [10,10,1,0,0,0,0,0], 41, false, 72⟩, 51, [Line.out "3", Line.out "4", Line.out "5", Line.out "6", Line.out "7", Line.out "8", Line.out "9"], none⟩ := by
  rw [runLoop_pos _ _ (by norm_num)]; simp [demo_step21, demo_loop22]

theorem demo_loop20 : TinyVM.runLoop ⟨demoMem, [3,10,1,3,0,0,0,0], 26, true, 20⟩ 9999980 = ⟨⟨demoMem, [10,10,1,0,0,0,0,0], 41, false, 72⟩, 52, [Line.out "3", Line.out "4", Line.out "5", Line.out "6", Line.out "7", Line.out "8", Line.out "9"], none⟩ := by
  rw [runLoop_pos _ _ (by norm_num)]; simp [demo_step20, demo_loop21]

theorem demo_loop19 : TinyVM.runLoop ⟨demoMem, [3,10,1,4294967288,0,0,0,0], 23, true, 19⟩ 9999981 = ⟨⟨demoMem, [10,10,1,0,0,0,0,0], 41, false, 72⟩, 53, [Line.out "3", Line.out "4", Line.out "5", Line.out "6", Line.out "7", Line.out "8", Line.out "9"], none⟩ := by
  rw [runLoop_pos _ _ (by norm_num)]; simp [demo_step19, demo_loop20]

theorem demo_loop18 : TinyVM.runLoop ⟨demoMem, [2,10,1,4294967288,0,0,0,0], 20, true, 18⟩ 9999982 = ⟨⟨demoMem, [10,10,1,0,0,0,0,0], 41, false, 72⟩, 54, [Line.out "3", Line.out "4", Line.out "5", Line.out "6", Line.out "7", Line.out "8", Line.out "9"], none⟩ := by
  rw [runLoop_pos _ _ (by norm_num)]; simp [demo_step18, demo_loop19]

theorem demo_loop17 : TinyVM.runLoop ⟨demoMem, [2,10,1,4294967288,0,0,0,0], 14, true, 17⟩ 9999983 = ⟨⟨demoMem, [10,10,1,0,0,0,0,0], 41, false, 72⟩, 55, [Line.out "3", Line.out "4", Line.out "5", Line.out "6", Line.out "7", Line.out "8", Line.out "9"], none⟩ := by
  rw [runLoop_pos _ _ (by norm_num)]; simp [demo_step17, demo_loop18]

theorem demo_loop16 : TinyVM.runLoop ⟨demoMem, [2,10,1,4294967288,0,0,0,0], 12, true, 16⟩ 9999984 = ⟨⟨demoMem, [10,10,1,0,0,0,0,0], 41, false, 72⟩, 56, [Line.out "2", Line.out "3", Line.out "4", Line.out "5", Line.out "6", Line.out "7", Line.out "8", Line.out "9"], none⟩ := by
  rw [runLoop_pos _ _ (by norm_num)]; simp [demo_step16, demo_loop17]

theorem demo_loop15 : TinyVM.runLoop ⟨demoMem, [2,10,1,4294967288,0,0,0,0], 35, true, 15⟩ 9999985 = ⟨⟨demoMem, [10,10,1,0,0,0,0,0], 41, false, 72⟩, 57, [Line.out "2", Line.out "3", Line.out "4", Line.out "5", Line.out "6", Line.out "7", Line.out "8", Line.out "9"], none⟩ := by
  rw [runLoop_pos _ _ (by norm_num)]; simp [demo_step15, demo_loop16]

theorem demo_loop14 : TinyVM.runLoop ⟨demoMem, [2,10,1,4294967288,0,0,0,0], 29, true, 14⟩ 9999986 = ⟨⟨demoMem, [10,10,1,0,0,0,0,0], 41, false, 72⟩, 58, [Line.out "2", Line.out "3", Line.out "4", Line.out "5", Line.out "6", Line.out "7", Line.out "8", Line.out "9"], none⟩ := by
  rw [runLoop_pos _ _ (by norm_num)]; simp [demo_step14, demo_loop15]

theorem demo_loop13 : TinyVM.runLoop ⟨demoMem, [2,10,1,2,0,0,0,0], 26, true, 13⟩ 9999987 = ⟨⟨demoMem, [10,10,1,0,0,0,0,0], 41, false, 72⟩, 59, [Line.out "2", Line.out "3", Line.out "4", Line.out "5", Line.out "6", Line.out "7", Line.out "8", Line.out "9"], none⟩ := by
  rw [runLoop_pos _ _ (by norm_num)]; simp [demo_step13, demo_loop14]

theorem demo_loop12 : TinyVM.runLoop ⟨demoMem, [2,10,1,4294967287,0,0,0,0], 23, true, 12⟩ 9999988 = ⟨⟨demoMem, [10,10,1,0,0,0,0,0], 41, false, 72⟩, 60, [Line.out "2", Line.out "3", Line.out "4", Line.out "5", Line.out "6", Line.out "7", Line.out "8", Line.out "9"], none⟩ := by
  rw [runLoop_pos _ _ (by norm_num)]; simp [demo_step12, demo_loop13]

theorem demo_loop11 : TinyVM.runLoop ⟨demoMem, [1,10,1,4294967287,0,0,0,0], 20, true, 11⟩ 9999989 = ⟨⟨demoMem, [10,10,1,0,0,0,0,0], 41, false, 72⟩, 61, [Line.out "2", Line.out "3", Line.out "4", Line.out "5", Line.out "6", Line.out "7", Line.out "8", Line.out "9"], none⟩ := by
  rw [runLoop_pos _ _ (by norm_num)]; simp [demo_step11, demo_loop12]

theorem demo_loop10 : TinyVM.runLoop ⟨demoMem, [1,10,1,4294967287,0,0,0,0], 14, true, 10⟩ 9999990 = ⟨⟨demoMem, [10,10,1,0,0,0,0,0], 41, false, 72⟩, 62, [Line.out "2", Line.out "3", Line.out "4", Line.out "5", Line.out "6", Line.out "7", Line.out "8", Line.out "9"], none⟩ := by
  rw [runLoop_pos _ _ (by norm_num)]; simp [demo_step10, demo_loop11]

theorem demo_loop9 : TinyVM.runLoop ⟨demoMem, [1,10,1,4294967287,0,0,0,0], 12, true, 9⟩ 9999991 = ⟨⟨demoMem, [10,10,1,0,0,0,0,0], 41, false, 72⟩, 63, [Line.out "1", Line.out "2", Line.out "3", Line.out "4", Line.out "5", Line.out "6", Line.out "7", Line.out "8", Line.out "9"], none⟩ := by
  rw [runLoop_pos _ _ (by norm_num)]; simp [demo_step9, demo_loop10]

theorem demo_loop8 : TinyVM.runLoop ⟨demoMem, [1,10,1,4294967287,0,0,0,0], 35, true, 8⟩ 9999992 = ⟨⟨demoMem, [10,10,1,0,0,0,0,0], 41, false, 72⟩, 64, [Line.out "1", Line.out "2", Line.out "3", Line.out "4", Line.out "5", Line.out "6", Line.out "7", Line.out "8", Line.out "9"], none⟩ := by
  rw [runLoop_pos _ _ (by norm_num)]; simp [demo_step8, demo_loop9]

theorem demo_loop7 : TinyVM.runLoop ⟨demoMem, [1,10,1,4294967287,0,0,0,0], 29, true, 7⟩ 9999993 = ⟨⟨demoMem, [10,10,1,0,0,0,0,0], 41, false, 72⟩, 65, [Line.out "1", Line.out "2", Line.out "3", Line.out "4", Line.out "5", Line.out "6", Line.out "7", Line.out "8", Line.out "9"], none⟩ := by
  rw [runLoop_pos _ _ (by norm_num)]; simp [demo_step7, demo_loop8]

theorem demo_loop6 : TinyVM.runLoop ⟨demoMem, [1,10,1,1,0,0,0,0], 26, true, 6⟩ 9999994 = ⟨⟨demoMem, [10,10,1,0,0,0,0,0], 41, false, 72⟩, 66, [Line.out "1", Line.out "2", Line.out "3", Line.out "4", Line.out "5", Line.out "6", Line.out "7", Line.out "8", Line.out "9"], none⟩ := by
  rw [runLoop_pos _ _ (by norm_num)]; simp [demo_step6, demo_loop7]

theorem demo_loop5 : TinyVM.runLoop ⟨demoMem, [1,10,1,0,0,0,0,0], 23, true, 5⟩ 9999995 = ⟨⟨demoMem, [10,10,1,0,0,0,0,0], 41, false, 72⟩, 67, [Line.out "1", Line.out "2", Line.out "3", Line.out "4", Line.out "5", Line.out "6", Line.out "7", Line.out "8", Line.out "9"], none⟩ := by
  rw [runLoop_pos _ _ (by norm_num)]; simp [demo_step5, demo_loop6]

theorem demo_loop4 : TinyVM.runLoop ⟨demoMem, [0,10,1,0,0,0,0,0], 20, true, 4⟩ 9999996 = ⟨⟨demoMem, [10,10,1,0,0,0,0,0], 41, false, 72⟩, 68, [Line.out "1", Line.out "2", Line.out "3", Line.out "4", Line.out "5", Line.out "6", Line.out "7", Line.out "8", Line.out "9"], none⟩ := by
  rw [runLoop_pos _ _ (by norm_num)]; simp [demo_step4, demo_loop5]

theorem demo_loop3 : TinyVM.runLoop ⟨demoMem, [0,10,0,0,0,0,0,0], 14, true, 3⟩ 9999997 = ⟨⟨demoMem, [10,10,1,0,0,0,0,0], 41, false, 72⟩, 69, [Line.out "1", Line.out "2", Line.out "3", Line.out "4", Line.out "5", Line.out "6", Line.out "7", Line.out "8", Line.out "9"], none⟩ := by
  rw [runLoop_pos _ _ (by norm_num)]; simp [demo_step3, demo_loop4]

theorem demo_loop2 : TinyVM.runLoop ⟨demoMem, [0,10,0,0,0,0,0,0], 12, true, 2⟩ 9999998 = ⟨⟨demoMem, [10,10,1,0,0,0,0,0], 41, false, 72⟩, 70, [Line.out "0", Line.out "1", Line.out "2", Line.out "3", Line.out "4", Line.out "5", Line.out "6", Line.out "7", Line.out "8", Line.out "9"], none⟩ := by
  rw [runLoop_pos _ _ (by norm_num)]; simp [demo_step2, demo_loop3]

theorem demo_loop1 : TinyVM.runLoop ⟨demoMem, [0,0,0,0,0,0,0,0], 6, true, 1⟩ 9999999 = ⟨⟨demoMem, [10,10,1,0,0,0,0,0], 41, false, 72⟩, 71, [Line.out "0", Line.out "1", Line.out "2", Line.out "3", Line.out "4", Line.out "5", Line.out "6", Line.out "7", Line.out "8", Line.out "9"], none⟩ := by
  rw [runLoop_pos _ _ (by norm_num)]; simp [demo_step1, demo_loop2]

theorem demo_loop0 : TinyVM.runLoop ⟨demoMem, [0,0,0,0,0,0,0,0], 0, true, 0⟩ 10000000 = ⟨⟨demoMem, [10,10,1,0,0,0,0,0], 41, false, 72⟩, 72, [Line.out "0", Line.out "1", Line.out "2", Line.out "3", Line.out "4", Line.out "5", Line.out "6", Line.out "7", Line.out "8", Line.out "9"], none⟩ := by
  rw [runLoop_pos _ _ (by norm_num)]; simp [demo_step0, demo_loop1]

theorem run_eq_of_loop (vm vm' : TinyVM) (n steps : Nat) (lines : List Line)
    (h : TinyVM.runLoop { vm with running := true } n = ⟨vm', steps, lines, none⟩) :
    TinyVM.run vm n = (vm', lines ++ [Line.summary steps vm'.opcount]) := by
  simp only [TinyVM.run, h]

theorem demo_run_eq : TinyVM.run demoVM 10000000 =
    (⟨demoMem, [10,10,1,0,0,0,0,0], 41, false, 72⟩, [Line.out "0", Line.out "1", Line.out "2", Line.out "3", Line.out "4", Line.out "5", Line.out "6", Line.out "7", Line.out "8", Line.out "9"] ++ [Line.summary 72 72]) := by
  rw [demoVM_eq]
  exact run_eq_of_loop _ _ _ _ _ demo_loop0

/-- C3 (counterexample): running the built-in counting program with the
default step budget of `main` ends with operation count 72, not the 40 the
spec states: 2 setup loads + 10 iterations of PRINT/LOAD/ADD/MOV/SUB/JZ +
9 back-edge JMPs + the final HALT. -/
theorem demo_opcount_cex :
    (TinyVM.run demoVM 10000000).1.opcount = 72 ∧
    (TinyVM.run demoVM 10000000).1.opcount ≠ 40 := by
  rw [demo_run_eq]
  decide

/-- C3 (amended): running the built-in canonical counting program with
`run()` emits the lines `0`,`1`,...,`9` in order followed by the summary
line, then halts (`running = false`), with the final operation count equal
to the exact number of opcodes executed, which is 72 (not 40). -/
theorem demo_run_prints_0_to_9_opcount_72 :
    (TinyVM.run demoVM 10000000).2 =
      [Line.out "0", Line.out "1", Line.out "2", Line.out "3", Line.out "4",
       Line.out "5", Line.out "6", Line.out "7", Line.out "8", Line.out "9",
       Line.summary 72 72] ∧
    (TinyVM.run demoVM 10000000).1.running = false ∧
    (TinyVM.run demoVM 10000000).1.opcount = 72 := by
  rw [demo_run_eq]
  decide

/-- C1 (counterexample): `load` with `address + length` exceeding the memory
size does not fault and silently resizes the memory: loading 6 bytes at
address 2 into a 4-byte memory yields an 8-byte memory. -/
theorem load_oob_cex :
    ((TinyVM.init 4).load [1,2,3,4,5,6] 2).mem.length = 8 ∧
    (TinyVM.init 4).mem.length = 4 := by decide

/-- C1 (amended): for `addr ≤ len(mem)`, `load(bytes, addr)` never faults;
when `addr + length` exceeds the memory size the bytearray slice assignment
silently grows the memory, so the new length is
`max (old length) (addr + length)`. -/
theorem load_never_faults_and_resizes (vm : TinyVM) (data : List Nat) (addr : Nat)
    (h : addr ≤ vm.mem.length) :
    (vm.load data addr).mem.length = max vm.mem.length (addr + data.length) := by
  simp [TinyVM.load, List.length_take, List.length_drop]
  omega

/-- Witness for C1 at a 4-byte memory and a 6-byte load at address 2. -/
theorem load_never_faults_and_resizes_witness :
    2 ≤ (TinyVM.init 4).mem.length ∧
    ((TinyVM.init 4).load [1,2,3,4,5,6] 2).mem.length =
      max (TinyVM.init 4).mem.length (2 + ([1,2,3,4,5,6] : List Nat).length) :=
  ⟨by decide, load_never_faults_and_resizes (TinyVM.init 4) [1,2,3,4,5,6] 2 (by decide)⟩

-- ===== C9 =====
/-- C9: for an in-range `load(data, addr)` (`addr + len(data) ≤ len(mem)`),
the memory length is unchanged, bytes outside `[addr, addr + len(data))` are
unchanged, the target range holds `data`, the registers, running flag and
operation count are untouched, and the IP becomes `addr`. -/
theorem load_in_range_frame (vm : TinyVM) (data : List Nat) (addr : Nat)
    (h : addr + data.length ≤ vm.mem.length) :
    (vm.load data addr).mem.length = vm.mem.length ∧
    (∀ i, i < addr → (vm.load data addr).mem.get? i = vm.mem.get? i) ∧
    (∀ i, addr + data.length ≤ i → (vm.load data addr).mem.get? i = vm.mem.get? i) ∧
    (∀ j, j < data.length → (vm.load data addr).mem.get? (addr + j) = data.get? j) ∧
    (vm.load data addr).regs = vm.regs ∧
    (vm.load data addr).running = vm.running ∧
    (vm.load data addr).opcount = vm.opcount ∧
    (vm.load data addr).ip = addr := by
  have htake : (vm.mem.take addr).length = addr := by
    rw [List.length_take]
    exact min_eq_left (by omega)
  refine ⟨?_, ?_, ?_, ?_, rfl, rfl, rfl, rfl⟩
  · simp only [TinyVM.load, List.length_append, htake, List.length_drop]
    omega
  · intro i hi
    simp only [TinyVM.load, List.get?_eq_getElem?]
    rw [List.getElem?_append_left (by rw [List.length_append, htake]; omega),
      List.getElem?_append_left (by rw [htake]; exact hi), List.getElem?_take_of_lt hi]
  · intro i hi
    simp only [TinyVM.load, List.get?_eq_getElem?]
    rw [List.getElem?_append_right (by rw [List.length_append, htake]; omega),
      List.getElem?_drop]
    congr 1
    rw [List.length_append, htake]
    omega
  · intro j hj
    simp only [TinyVM.load, List.get?_eq_getElem?]
    rw [List.getElem?_append_left (by rw [List.length_append, htake]; omega),
      List.getElem?_append_right (by rw [htake]; omega)]
    congr 1
    rw [htake]
    omega

/-- Witness for C9 on an 8-byte memory loading two bytes at address 2. -/
theorem load_in_range_frame_witness :
    (2 : Nat) + ([5,6] : List Nat).length ≤ (TinyVM.init 8).mem.length ∧
    ((TinyVM.init 8).load [5,6] 2).mem.length = (TinyVM.init 8).mem.length ∧
    ((TinyVM.init 8).load [5,6] 2).mem.get? 1 = (TinyVM.init 8).mem.get? 1 ∧
    ((TinyVM.init 8).load [5,6] 2).mem.get? (2 + 0) = ([5,6] : List Nat).get? 0 ∧
    ((TinyVM.init 8).load [5,6] 2).regs = (TinyVM.init 8).regs ∧
    ((TinyVM.init 8).load [5,6] 2).ip = 2 := by
  have h := load_in_range_frame (TinyVM.init 8) [5,6] 2 (by decide)
  exact ⟨by decide, h.1, h.2.1 1 (by decide), h.2.2.2.1 0 (by decide), h.2.2.2.2.1, h.2.2.2.2.2.2.2⟩

-- ===== C10 =====
/-- C10: `step()` is deterministic: two VM states agreeing on memory,
registers, IP, running flag and operation count (all the state `step` can
read) produce identical successor states, identical output lines and
identical faults. -/
theorem step_deterministic (vm1 vm2 : TinyVM)
    (hm : vm1.mem = vm2.mem) (hr : vm1.regs = vm2.regs) (hi : vm1.ip = vm2.ip)
    (hg : vm1.running = vm2.running) (ho : vm1.opcount = vm2.opcount) :
    vm1.step = vm2.step := by
  cases vm1
  cases vm2
  simp_all

/-- Witness for C10: two distinct constructions of the same VM state. -/
theorem step_deterministic_witness :
    (TinyVM.init 4).step = ((TinyVM.init 4).load [] 0).step :=
  step_deterministic _ _ (by decide) (by decide) (by decide) (by decide) (by decide)

-- ===== C4 =====
/-- C4: fetching an opcode byte that is not in the instruction table emits
exactly one diagnostic line containing the opcode as a two-digit uppercase
hexadecimal value and the byte offset at which the opcode byte was fetched
(`vm.ip`, its own address, not the address after it), and sets `running` to
`false`; `(hex2 b).length = 2` states the two-digit property. -/
theorem unknown_opcode_diag (vm : TinyVM) (b : Nat)
    (hfetch : vm.mem.get? vm.ip = some b) (hbyte : b < 256)
    (hunk : b ∉ ([0x00, 0x01, 0x10, 0x11, 0x20, 0x21, 0x30, 0x31, 0x40, 0xF0] : List Nat)) :
    vm.step = ({ vm with ip := vm.ip + 1, opcount := vm.opcount + 1, running := false },
      [Line.out ("Unknown opcode 0x" ++ hex2 b ++ " at " ++ toString vm.ip)], none) ∧
    (hex2 b).length = 2 := by
  simp only [List.mem_cons, List.not_mem_nil, or_false, not_or] at hunk
  obtain ⟨h0, h1, h2, h3, h4, h5, h6, h7, h8, h9⟩ := hunk
  rw [List.get?_eq_getElem?] at hfetch
  constructor
  · simp [TinyVM.step, TinyVM.fetch_u8, hfetch, h0, h1, h2, h3, h4, h5, h6, h7, h8, h9,
      unknownLine]
  · simp [hex2, String.length]

/-- Witness for C4 at opcode byte `0x99` fetched at address 0. -/
theorem unknown_opcode_diag_witness :
    TinyVM.step ⟨[153], [0,0,0,0,0,0,0,0], 0, true, 0⟩ =
      (⟨[153], [0,0,0,0,0,0,0,0], 1, false, 1⟩,
        [Line.out ("Unknown opcode 0x" ++ hex2 153 ++ " at " ++ toString (0:Nat))], none) ∧
    (hex2 153).length = 2 :=
  unknown_opcode_diag ⟨[153], [0,0,0,0,0,0,0,0], 0, true, 0⟩ 153 (by decide) (by decide) (by decide)

-- ===== C6 =====
/-- C6: with the operand bytes in range, `ADD_REG_REG` stores
`(a + b) mod 2^32` and `SUB_REG_REG` stores `(a - b) mod 2^32` (computed on
`Int` and truncated back, exactly as the Python bitmask with 0xFFFFFFFF does) in the
destination register, and neither raises a fault (the fault component of
`step` is `none`). -/
theorem add_sub_wrap_mod32 :
    (∀ (vm : TinyVM) (d s : Nat),
      vm.mem.get? vm.ip = some 0x20 → vm.mem.get? (vm.ip + 1) = some d →
      vm.mem.get? (vm.ip + 2) = some s →
      vm.step =
        ({ vm with
            ip := vm.ip + 3
            opcount := vm.opcount + 1
            regs := vm.regs.set (d % NUM_REGS)
              ((vm.regs.getD (d % NUM_REGS) 0 + vm.regs.getD (s % NUM_REGS) 0) % 2 ^ 32) },
          [], none)) ∧
    (∀ (vm : TinyVM) (d s : Nat),
      vm.mem.get? vm.ip = some 0x21 → vm.mem.get? (vm.ip + 1) = some d →
      vm.mem.get? (vm.ip + 2) = some s →
      vm.step =
        ({ vm with
            ip := vm.ip + 3
            opcount := vm.opcount + 1
            regs := vm.regs.set (d % NUM_REGS)
              (((vm.regs.getD (d % NUM_REGS) 0 : Int) -
                (vm.regs.getD (s % NUM_REGS) 0 : Int)) % 2 ^ 32).toNat },
          [], none)) := by
  constructor
  · intro vm d s hop hd hs
    rw [List.get?_eq_getElem?] at hop hd hs
    simp [TinyVM.step, TinyVM.fetch_u8, hop, hd, hs]
  · intro vm d s hop hd hs
    rw [List.get?_eq_getElem?] at hop hd hs
    simp [TinyVM.step, TinyVM.fetch_u8, hop, hd, hs]

-- ===== C2 =====
theorem fetch_u8_cases (vm : TinyVM) :
    vm.fetch_u8 = .error (.indexError vm.ip) ∨
    ∃ v, vm.mem.get? vm.ip = some v ∧ vm.fetch_u8 = .ok (v, { vm with ip := vm.ip + 1 }) := by
  rw [TinyVM.fetch_u8]
  cases h : vm.mem.get? vm.ip <;> simp

theorem fetch_u32_cases (vm : TinyVM) :
    vm.fetch_u32 = .error (.structError vm.ip) ∨
    ∃ b0 b1 b2 b3, vm.mem.get? vm.ip = some b0 ∧ vm.mem.get? (vm.ip + 1) = some b1 ∧
      vm.mem.get? (vm.ip + 2) = some b2 ∧ vm.mem.get? (vm.ip + 3) = some b3 ∧
      vm.fetch_u32 = .ok (b0 * 2 ^ 24 + b1 * 2 ^ 16 + b2 * 2 ^ 8 + b3,
        { vm with ip := vm.ip + 4 }) := by
  rw [TinyVM.fetch_u32]
  cases h0 : vm.mem.get? vm.ip <;> cases h1 : vm.mem.get? (vm.ip + 1) <;>
    cases h2 : vm.mem.get? (vm.ip + 2) <;> cases h3 : vm.mem.get? (vm.ip + 3) <;> simp

theorem subWrapBound (a b : Nat) : (((a : Int) - (b : Int)) % 2 ^ 32).toNat < 2 ^ 32 := by
  have h1 : ((a : Int) - (b : Int)) % 2 ^ 32 < 2 ^ 32 := Int.emod_lt_of_pos _ (by norm_num)
  omega

set_option maxHeartbeats 4000000 in
theorem step_effects (vm : TinyVM) :
    vm.step.1.mem = vm.mem ∧
    (vm.step.1.opcount = vm.opcount ∨ vm.step.1.opcount = vm.opcount + 1) ∧
    (vm.step.1.regs = vm.regs ∨
      ∃ e x, vm.step.1.regs = vm.regs.set (e % NUM_REGS) x ∧
        (x < 2 ^ 32 ∨ (∃ j, x = vm.regs.getD (j % NUM_REGS) 0) ∨
          ∃ b0 b1 b2 b3, b0 ∈ vm.mem ∧ b1 ∈ vm.mem ∧ b2 ∈ vm.mem ∧ b3 ∈ vm.mem ∧
            x = b0 * 2 ^ 24 + b1 * 2 ^ 16 + b2 * 2 ^ 8 + b3)) ∧
    (∀ l ∈ vm.step.2.1, ∃ s, l = Line.out s) := by
  rcases hstep : vm.step with ⟨vm1, lines, fault⟩
  dsimp only
  rw [TinyVM.step] at hstep
  rcases fetch_u8_cases vm with h8 | ⟨v, hv, h8⟩ <;> rw [h8] at hstep <;> dsimp only at hstep
  · injection hstep with h1 h2
    injection h2 with h2 h3
    subst h1
    subst h2
    refine ⟨rfl, Or.inl rfl, Or.inl rfl, ?_⟩
    intro l hl
    exact absurd hl (List.not_mem_nil l)
  ·
    by_cases hv0 : v = 0
    · rw [if_pos hv0] at hstep
      injection hstep with h1 h2
      injection h2 with h2 h3
      subst h1
      subst h2
      refine ⟨rfl, Or.inr rfl, Or.inl rfl, ?_⟩
      intro l hl
      first
      | exact absurd hl (List.not_mem_nil l)
      | exact ⟨_, List.mem_singleton.mp hl⟩
    · rw [if_neg hv0] at hstep
      by_cases hv1 : v = 1
      · rw [if_pos hv1] at hstep
        injection hstep with h1 h2
        injection h2 with h2 h3
        subst h1
        subst h2
        refine ⟨rfl, Or.inr rfl, Or.inl rfl, ?_⟩
        intro l hl
        first
        | exact absurd hl (List.not_mem_nil l)
        | exact ⟨_, List.mem_singleton.mp hl⟩
      · rw [if_neg hv1] at hstep
        by_cases hv2 : v = 16
        · rw [if_pos hv2] at hstep
          rcases fetch_u8_cases ⟨vm.mem, vm.regs, vm.ip + 1, vm.running, vm.opcount + 1⟩ with
            h8r | ⟨r, hgr, h8r⟩ <;> rw [h8r] at hstep <;> dsimp only at hstep
          ·
            injection hstep with h1 h2
            injection h2 with h2 h3
            subst h1
            subst h2
            refine ⟨rfl, Or.inr rfl, Or.inl rfl, ?_⟩
            intro l hl
            first
            | exact absurd hl (List.not_mem_nil l)
            | exact ⟨_, List.mem_singleton.mp hl⟩
          ·
            rcases fetch_u32_cases ⟨vm.mem, vm.regs, vm.ip + 1 + 1, vm.running, vm.opcount + 1⟩ with
              h32a | ⟨b0, b1, b2, b3, hb0, hb1, hb2, hb3, h32a⟩ <;> rw [h32a] at hstep <;>
              dsimp only at hstep
            ·
              injection hstep with h1 h2
              injection h2 with h2 h3
              subst h1
              subst h2
              refine ⟨rfl, Or.inr rfl, Or.inl rfl, ?_⟩
              intro l hl
              first
              | exact absurd hl (List.not_mem_nil l)
              | exact ⟨_, List.mem_singleton.mp hl⟩
            ·
              injection hstep with h1 h2
              injection h2 with h2 h3
              subst h1
              subst h2
              refine ⟨rfl, Or.inr rfl, Or.inr ⟨r, _, rfl, Or.inr (Or.inr ⟨b0, b1, b2, b3, List.get?_mem hb0, List.get?_mem hb1, List.get?_mem hb2, List.get?_mem hb3, rfl⟩)⟩, ?_⟩
              intro l hl
              first
              | exact absurd hl (List.not_mem_nil l)
              | exact ⟨_, List.mem_singleton.mp hl⟩
        · rw [if_neg hv2] at hstep
          by_cases hv3 : v = 17
          · rw [if_pos hv3] at hstep
            rcases fetch_u8_cases ⟨vm.mem, vm.regs, vm.ip + 1, vm.running, vm.opcount + 1⟩ with
              h8d | ⟨d, hgd, h8d⟩ <;> rw [h8d] at hstep <;> dsimp only at hstep
            ·
              injection hstep with h1 h2
              injection h2 with h2 h3
              subst h1
              subst h2
              refine ⟨rfl, Or.inr rfl, Or.inl rfl, ?_⟩
              intro l hl
              first
              | exact absurd hl (List.not_mem_nil l)
              | exact ⟨_, List.mem_singleton.mp hl⟩
            ·
              rcases fetch_u8_cases ⟨vm.mem, vm.regs, vm.ip + 1 + 1, vm.running, vm.opcount + 1⟩ with
                h8s | ⟨s, hgs, h8s⟩ <;> rw [h8s] at hstep <;> dsimp only at hstep
              ·
                injection hstep with h1 h2
                injection h2 with h2 h3
                subst h1
                subst h2
                refine ⟨rfl, Or.inr rfl, Or.inl rfl, ?_⟩
                intro l hl
                first
                | exact absurd hl (List.not_mem_nil l)
                | exact ⟨_, List.mem_singleton.mp hl⟩
              ·
                injection hstep with h1 h2
                injection h2 with h2 h3
                subst h1
                subst h2
                refine ⟨rfl, Or.inr rfl, Or.inr ⟨d, _, rfl, Or.inr (Or.inl ⟨s, rfl⟩)⟩, ?_⟩
                intro l hl
                first
                | exact absurd hl (List.not_mem_nil l)
                | exact ⟨_, List.mem_singleton.mp hl⟩
          · rw [if_neg hv3] at hstep
            by_cases hv4 : v = 32
            · rw [if_pos hv4] at hstep
              rcases fetch_u8_cases ⟨vm.mem, vm.regs, vm.ip + 1, vm.running, vm.opcount + 1⟩ with
                h8d | ⟨d, hgd, h8d⟩ <;> rw [h8d] at hstep <;> dsimp only at hstep
              ·
                injection hstep with h1 h2
                injection h2 with h2 h3
                subst h1
                subst h2
                refine ⟨rfl, Or.inr rfl, Or.inl rfl, ?_⟩
                intro l hl
                first
                | exact absurd hl (List.not_mem_nil l)
                | exact ⟨_, List.mem_singleton.mp hl⟩
              ·
                rcases fetch_u8_cases ⟨vm.mem, vm.regs, vm.ip + 1 + 1, vm.running, vm.opcount + 1⟩ with
                  h8s | ⟨s, hgs, h8s⟩ <;> rw [h8s] at hstep <;> dsimp only at hstep
                ·
                  injection hstep with h1 h2
                  injection h2 with h2 h3
                  subst h1
                  subst h2
                  refine ⟨rfl, Or.inr rfl, Or.inl rfl, ?_⟩
                  intro l hl
                  first
                  | exact absurd hl (List.not_mem_nil l)
                  | exact ⟨_, List.mem_singleton.mp hl⟩
                ·
                  injection hstep with h1 h2
                  injection h2 with h2 h3
                  subst h1
                  subst h2
                  refine ⟨rfl, Or.inr rfl, Or.inr ⟨d, _, rfl, Or.inl (Nat.mod_lt _ (by norm_num))⟩, ?_⟩
                  intro l hl
                  first
                  | exact absurd hl (List.not_mem_nil l)
                  | exact ⟨_, List.mem_singleton.mp hl⟩
            · rw [if_neg hv4] at hstep
              by_cases hv5 : v = 33
              · rw [if_pos hv5] at hstep
                rcases fetch_u8_cases ⟨vm.mem, vm.regs, vm.ip + 1, vm.running, vm.opcount + 1⟩ with
                  h8d | ⟨d, hgd, h8d⟩ <;> rw [h8d] at hstep <;> dsimp only at hstep
                ·
                  injection hstep with h1 h2
                  injection h2 with h2 h3
                  subst h1
                  subst h2
                  refine ⟨rfl, Or.inr rfl, Or.inl rfl, ?_⟩
                  intro l hl
                  first
                  | exact absurd hl (List.not_mem_nil l)
                  | exact ⟨_, List.mem_singleton.mp hl⟩
                ·
                  rcases fetch_u8_cases ⟨vm.mem, vm.regs, vm.ip + 1 + 1, vm.running, vm.opcount + 1⟩ with
                    h8s | ⟨s, hgs, h8s⟩ <;> rw [h8s] at hstep <;> dsimp only at hstep
                  ·
                    injection hstep with h1 h2
                    injection h2 with h2 h3
                    subst h1
                    subst h2
                    refine ⟨rfl, Or.inr rfl, Or.inl rfl, ?_⟩
                    intro l hl
                    first
                    | exact absurd hl (List.not_mem_nil l)
                    | exact ⟨_, List.mem_singleton.mp hl⟩
                  ·
                    injection hstep with h1 h2
                    injection h2 with h2 h3
                    subst h1
                    subst h2
                    refine ⟨rfl, Or.inr rfl, Or.inr ⟨d, _, rfl, Or.inl (subWrapBound _ _)⟩, ?_⟩
                    intro l hl
                    first
                    | exact absurd hl (List.not_mem_nil l)
                    | exact ⟨_, List.mem_singleton.mp hl⟩
              · rw [if_neg hv5] at hstep
                by_cases hv6 : v = 48
                · rw [if_pos hv6] at hstep
                  rcases fetch_u32_cases ⟨vm.mem, vm.regs, vm.ip + 1, vm.running, vm.opcount + 1⟩ with
                    h32j | ⟨b0, b1, b2, b3, hb0, hb1, hb2, hb3, h32j⟩ <;> rw [h32j] at hstep <;>
                    dsimp only at hstep
                  ·
                    injection hstep with h1 h2
                    injection h2 with h2 h3
                    subst h1
                    subst h2
                    refine ⟨rfl, Or.inr rfl, Or.inl rfl, ?_⟩
                    intro l hl
                    first
                    | exact absurd hl (List.not_mem_nil l)
                    | exact ⟨_, List.mem_singleton.mp hl⟩
                  ·
                    injection hstep with h1 h2
                    injection h2 with h2 h3
                    subst h1
                    subst h2
                    refine ⟨rfl, Or.inr rfl, Or.inl rfl, ?_⟩
                    intro l hl
                    first
                    | exact absurd hl (List.not_mem_nil l)
                    | exact ⟨_, List.mem_singleton.mp hl⟩
                · rw [if_neg hv6] at hstep
                  by_cases hv7 : v = 49
                  · rw [if_pos hv7] at hstep
                    rcases fetch_u8_cases ⟨vm.mem, vm.regs, vm.ip + 1, vm.running, vm.opcount + 1⟩ with
                      h8r | ⟨r, hgr, h8r⟩ <;> rw [h8r] at hstep <;> dsimp only at hstep
                    ·
                      injection hstep with h1 h2
                      injection h2 with h2 h3
                      subst h1
                      subst h2
                      refine ⟨rfl, Or.inr rfl, Or.inl rfl, ?_⟩
                      intro l hl
                      first
                      | exact absurd hl (List.not_mem_nil l)
                      | exact ⟨_, List.mem_singleton.mp hl⟩
                    ·
                      rcases fetch_u32_cases ⟨vm.mem, vm.regs, vm.ip + 1 + 1, vm.running, vm.opcount + 1⟩ with
                        h32z | ⟨b0, b1, b2, b3, hb0, hb1, hb2, hb3, h32z⟩ <;> rw [h32z] at hstep <;>
                        dsimp only at hstep
                      ·
                        injection hstep with h1 h2
                        injection h2 with h2 h3
                        subst h1
                        subst h2
                        refine ⟨rfl, Or.inr rfl, Or.inl rfl, ?_⟩
                        intro l hl
                        first
                        | exact absurd hl (List.not_mem_nil l)
                        | exact ⟨_, List.mem_singleton.mp hl⟩
                      ·
                        split at hstep
                        ·
                          injection hstep with h1 h2
                          injection h2 with h2 h3
                          subst h1
                          subst h2
                          refine ⟨rfl, Or.inr rfl, Or.inl rfl, ?_⟩
                          intro l hl
                          first
                          | exact absurd hl (List.not_mem_nil l)
                          | exact ⟨_, List.mem_singleton.mp hl⟩
                        ·
                          injection hstep with h1 h2
                          injection h2 with h2 h3
                          subst h1
                          subst h2
                          refine ⟨rfl, Or.inr rfl, Or.inl rfl, ?_⟩
                          intro l hl
                          first
                          | exact absurd hl (List.not_mem_nil l)
                          | exact ⟨_, List.mem_singleton.mp hl⟩
                  · rw [if_neg hv7] at hstep
                    by_cases hv8 : v = 64
                    · rw [if_pos hv8] at hstep
                      rcases fetch_u8_cases ⟨vm.mem, vm.regs, vm.ip + 1, vm.running, vm.opcount + 1⟩ with
                        h8r | ⟨r, hgr, h8r⟩ <;> rw [h8r] at hstep <;> dsimp only at hstep
                      ·
                        injection hstep with h1 h2
                        injection h2 with h2 h3
                        subst h1
                        subst h2
                        refine ⟨rfl, Or.inr rfl, Or.inl rfl, ?_⟩
                        intro l hl
                        first
                        | exact absurd hl (List.not_mem_nil l)
                        | exact ⟨_, List.mem_singleton.mp hl⟩
                      ·
                        injection hstep with h1 h2
                        injection h2 with h2 h3
                        subst h1
                        subst h2
                        refine ⟨rfl, Or.inr rfl, Or.inl rfl, ?_⟩
                        intro l hl
                        first
                        | exact absurd hl (List.not_mem_nil l)
                        | exact ⟨_, List.mem_singleton.mp hl⟩
                    · rw [if_neg hv8] at hstep
                      by_cases hv9 : v = 240
                      · rw [if_pos hv9] at hstep
                        injection hstep with h1 h2
                        injection h2 with h2 h3
                        subst h1
                        subst h2
                        refine ⟨rfl, Or.inr rfl, Or.inl rfl, ?_⟩
                        intro l hl
                        first
                        | exact absurd hl (List.not_mem_nil l)
                        | exact ⟨_, List.mem_singleton.mp hl⟩
                      · rw [if_neg hv9] at hstep
                        injection hstep with h1 h2
                        injection h2 with h2 h3
                        subst h1
                        subst h2
                        refine ⟨rfl, Or.inr rfl, Or.inl rfl, ?_⟩
                        intro l hl
                        first
                        | exact absurd hl (List.not_mem_nil l)
                        | exact ⟨_, List.mem_singleton.mp hl⟩

theorem step_opcount_le (vm : TinyVM) : vm.opcount ≤ vm.step.1.opcount := by
  rcases (step_effects vm).2.1 with h | h <;> omega

theorem runLoop_opcount_le (vm : TinyVM) (b : Nat) :
    vm.opcount ≤ (TinyVM.runLoop vm b).vm.opcount := by
  induction b generalizing vm with
  | zero => exact Nat.le_refl _
  | succ k ih =>
    rw [TinyVM.runLoop]
    split
    · have h1 := step_opcount_le vm
      rcases hs : vm.step with ⟨vm1, lines, fault⟩
      rw [hs] at h1
      cases fault with
      | some f => simpa using h1
      | none => simpa using Nat.le_trans h1 (ih vm1)
    · exact Nat.le_refl _

/-- C2 (amended): `run()` creates the running flag (and its loop-local step
counter and start time) fresh — the result of `run` is independent of the
initial `running` value — but the operation count is NOT reset: it persists
on the VM instance and only grows across `run()` invocations. -/
theorem run_fresh_flags_opcount_persists (vm : TinyVM) (b : Bool) (n : Nat) :
    TinyVM.run { vm with running := b } n = TinyVM.run vm n ∧
    vm.opcount ≤ (TinyVM.run vm n).1.opcount := by
  constructor
  · cases vm
    rfl
  · have h := runLoop_opcount_le { vm with running := true } n
    unfold TinyVM.run
    rcases hl : TinyVM.runLoop { vm with running := true } n with ⟨vm1, steps, lines, fault⟩
    rw [hl] at h
    cases fault with
    | some f => simpa using h
    | none => simpa using h

/-- C2 (counterexample): the operation count carries over between two
independent `run()` calls: a `JMP 0` loop run for 2 steps and then for 3
more steps ends with `opcount = 5`, while a fresh VM run for 3 steps ends
with `opcount = 3`. -/
theorem opcount_carryover_cex :
    (TinyVM.run ((TinyVM.run ((TinyVM.init 5).load [48,0,0,0,0] 0) 2).1) 3).1.opcount = 5 ∧
    (TinyVM.run ((TinyVM.init 5).load [48,0,0,0,0] 0) 3).1.opcount = 3 := by
  decide

-- ===== C7 =====
theorem getD_lt {l : List Nat} {B i : Nat} (h : ∀ r ∈ l, r < B) (hB : 0 < B) :
    l.getD i 0 < B := by
  rw [List.getD_eq_getElem?_getD]
  cases hg : l[i]? with
  | none => simpa using hB
  | some x => simpa using h x (List.getElem?_mem hg)

/-- C7: `step()` preserves the register bank invariant: starting from any
state with 8 registers, all register values below `2^32` and well-formed
byte memory (all bytes below 256), after one `step` — whatever the opcode,
including `LOAD_REG_IMM` with any 4-byte immediate and `MOV_REG_REG` with
any register-encoding bytes — there are still exactly 8 registers
(register encodings are reduced mod `NUM_REGS = 8` before every access, so
no access can fault or resize the bank) and all values are below `2^32`. -/
theorem step_preserves_reg_inv (vm : TinyVM)
    (hlen : vm.regs.length = NUM_REGS)
    (hregs : ∀ r ∈ vm.regs, r < 2 ^ 32)
    (hmem : ∀ b ∈ vm.mem, b < 256) :
    vm.step.1.regs.length = NUM_REGS ∧ ∀ r ∈ vm.step.1.regs, r < 2 ^ 32 := by
  obtain ⟨-, -, hr, -⟩ := step_effects vm
  rcases hr with hr | ⟨e, x, hr, hx⟩
  · rw [hr]
    exact ⟨hlen, hregs⟩
  · rw [hr]
    constructor
    · rw [List.length_set]
      exact hlen
    · intro r hrmem
      rcases List.mem_or_eq_of_mem_set hrmem with hin | rfl
      · exact hregs _ hin
      · rcases hx with hx | ⟨j, rfl⟩ | ⟨b0, b1, b2, b3, m0, m1, m2, m3, rfl⟩
        · exact hx
        · exact getD_lt hregs (by norm_num)
        · have c0 := hmem _ m0
          have c1 := hmem _ m1
          have c2 := hmem _ m2
          have c3 := hmem _ m3
          simp only [show (2:Nat) ^ 24 = 16777216 from by norm_num,
            show (2:Nat) ^ 16 = 65536 from by norm_num,
            show (2:Nat) ^ 8 = 256 from by norm_num,
            show (2:Nat) ^ 32 = 4294967296 from by norm_num]
          omega

/-- Witness for C7 on a freshly initialised VM. -/
theorem step_preserves_reg_inv_witness :
    (TinyVM.init 4).step.1.regs.length = NUM_REGS ∧
    ∀ r ∈ (TinyVM.init 4).step.1.regs, r < 2 ^ 32 :=
  step_preserves_reg_inv (TinyVM.init 4) (by decide) (by decide) (by decide)

-- ===== C6 witness =====
/-- Witness for C6: ADD with `a = 7, b = 2^32 - 1` (wraps) and SUB with
`a = 7, b = 9` (wraps below zero). -/
theorem add_sub_wrap_mod32_witness :
    TinyVM.step ⟨[32, 0, 1], [7, 4294967295, 0, 0, 0, 0, 0, 0], 0, true, 0⟩ =
      ({ (⟨[32, 0, 1], [7, 4294967295, 0, 0, 0, 0, 0, 0], 0, true, 0⟩ : TinyVM) with
          ip := 0 + 3
          opcount := 0 + 1
          regs := ([7, 4294967295, 0, 0, 0, 0, 0, 0] : List Nat).set (0 % NUM_REGS)
            ((([7, 4294967295, 0, 0, 0, 0, 0, 0] : List Nat).getD (0 % NUM_REGS) 0 +
              ([7, 4294967295, 0, 0, 0, 0, 0, 0] : List Nat).getD (1 % NUM_REGS) 0) % 2 ^ 32) },
        [], none) ∧
    TinyVM.step ⟨[33, 0, 1], [7, 9, 0, 0, 0, 0, 0, 0], 0, true, 0⟩ =
      ({ (⟨[33, 0, 1], [7, 9, 0, 0, 0, 0, 0, 0], 0, true, 0⟩ : TinyVM) with
          ip := 0 + 3
          opcount := 0 + 1
          regs := ([7, 9, 0, 0, 0, 0, 0, 0] : List Nat).set (0 % NUM_REGS)
            (((([7, 9, 0, 0, 0, 0, 0, 0] : List Nat).getD (0 % NUM_REGS) 0 : Int) -
              (([7, 9, 0, 0, 0, 0, 0, 0] : List Nat).getD (1 % NUM_REGS) 0 : Int)) % 2 ^ 32).toNat },
        [], none) :=
  ⟨add_sub_wrap_mod32.1 ⟨[32, 0, 1], [7, 4294967295, 0, 0, 0, 0, 0, 0], 0, true, 0⟩ 0 1
      (by decide) (by decide) (by decide),
    add_sub_wrap_mod32.2 ⟨[33, 0, 1], [7, 9, 0, 0, 0, 0, 0, 0], 0, true, 0⟩ 0 1
      (by decide) (by decide) (by decide)⟩

-- ===== C5 =====
theorem runLoop_lines_out (vm : TinyVM) (b : Nat) :
    ∀ l ∈ (TinyVM.runLoop vm b).lines, ∃ s, l = Line.out s := by
  induction b generalizing vm with
  | zero =>
    intro l hl
    simp [TinyVM.runLoop] at hl
  | succ k ih =>
    intro l hl
    rw [TinyVM.runLoop] at hl
    by_cases hr : vm.running = true
    · rw [if_pos hr] at hl
      have hout := (step_effects vm).2.2.2
      rcases hs : vm.step with ⟨vm1, slines, fault⟩
      rw [hs] at hl hout
      cases fault with
      | some f => exact hout l (by simpa using hl)
      | none =>
        dsimp only at hl
        rcases List.mem_append.mp hl with h | h
        · exact hout l (by simpa using h)
        · exact ih vm1 l h
    · rw [if_neg hr] at hl
      simp at hl

/-- C5: `run()` is a total function of the embedded state (it never exits
abnormally by construction: every fault `step` can raise is caught inside
it), its output always ends with the end-of-run summary line on every exit
path, and whenever a "VM crashed" diagnostic appears in the output the
final `running` flag is `false`. -/
theorem run_summary_and_crash (vm : TinyVM) (n : Nat) :
    (∃ rest s o, (TinyVM.run vm n).2 = rest ++ [Line.summary s o]) ∧
    (∀ f, Line.crash f ∈ (TinyVM.run vm n).2 → (TinyVM.run vm n).1.running = false) := by
  have hout := runLoop_lines_out { vm with running := true } n
  unfold TinyVM.run
  rcases hl : TinyVM.runLoop { vm with running := true } n with ⟨vm1, steps, lines, fault⟩
  rw [hl] at hout
  cases fault with
  | some f =>
    refine ⟨⟨lines ++ [Line.crash f], steps, vm1.opcount, by simp⟩, fun f' hf' => rfl⟩
  | none =>
    refine ⟨⟨lines, steps, vm1.opcount, rfl⟩, fun f' hf' => ?_⟩
    exfalso
    rcases List.mem_append.mp hf' with h | h
    · obtain ⟨s, hs⟩ := hout _ h
      simp at hs
    · simp at h

/-- Witness for C5 on an empty memory, where the first fetch faults. -/
theorem run_summary_and_crash_witness :
    (∃ rest s o, (TinyVM.run (TinyVM.init 0) 5).2 = rest ++ [Line.summary s o]) ∧
    (TinyVM.run (TinyVM.init 0) 5).1.running = false :=
  ⟨(run_summary_and_crash (TinyVM.init 0) 5).1,
    (run_summary_and_crash (TinyVM.init 0) 5).2 (Fault.indexError 0) (by decide)⟩

-- ===== C8 =====
theorem stepIter_succ (vm : TinyVM) (k : Nat) :
    stepIter vm (k + 1) = (stepIter vm k).step.1 := by
  induction k generalizing vm with
  | zero => rfl
  | succ m ih =>
    show stepIter vm.step.1 (m + 1) = (stepIter vm.step.1 m).step.1
    exact ih vm.step.1

theorem runLoop_no_halt (vm : TinyVM) (b : Nat)
    (hrun : vm.running = true)
    (h : ∀ k, k < b → (stepIter vm k).step.2.2 = none ∧ ((stepIter vm k).step.1).running = true) :
    (TinyVM.runLoop vm b).vm = stepIter vm b ∧
    (TinyVM.runLoop vm b).steps = b ∧
    (TinyVM.runLoop vm b).fault = none := by
  induction b generalizing vm with
  | zero => exact ⟨rfl, rfl, rfl⟩
  | succ k ih =>
    rw [TinyVM.runLoop, if_pos hrun]
    obtain ⟨hf0, hr0⟩ := h 0 (Nat.succ_pos k)
    dsimp only [stepIter] at hf0 hr0
    rcases hs : vm.step with ⟨vm1, slines, fault⟩
    rw [hs] at hf0 hr0
    dsimp only at hf0 hr0
    subst hf0
    dsimp only
    have hshift : ∀ k', k' < k →
        (stepIter vm1 k').step.2.2 = none ∧ ((stepIter vm1 k').step.1).running = true := by
      intro k' hk'
      have heq : stepIter vm (k' + 1) = stepIter vm1 k' := by
        rw [stepIter, hs]
      have := h (k' + 1) (by omega)
      rwa [heq] at this
    obtain ⟨ih1, ih2, ih3⟩ := ih vm1 hr0 hshift
    have hiter : stepIter vm (k + 1) = stepIter vm1 k := by
      rw [stepIter, hs]
    exact ⟨by rw [hiter]; exact ih1, by rw [ih2], ih3⟩

/-- C8: if the program does not halt or fault within `max_steps` steps (no
step faults or clears `running` among the first `max_steps` steps), then
`run(max_steps)` executes exactly `max_steps` steps, stops with `running`
still `true`, reports `max_steps` in the summary line, and raises no fault
(no crash line is emitted). -/
theorem budget_exhaustion (vm : TinyVM) (n : Nat)
    (h : ∀ k, k < n → ((stepIter { vm with running := true } k).step.2.2 = none ∧
        ((stepIter { vm with running := true } k).step.1).running = true)) :
    (TinyVM.run vm n).1.running = true ∧
    (TinyVM.run vm n).1 = stepIter { vm with running := true } n ∧
    (TinyVM.run vm n).2.getLast? =
      some (Line.summary n (TinyVM.run vm n).1.opcount) ∧
    (∀ f, Line.crash f ∉ (TinyVM.run vm n).2) := by
  have hrunning : (stepIter { vm with running := true } n).running = true := by
    cases n with
    | zero => rfl
    | succ m =>
      rw [stepIter_succ]
      exact (h m (Nat.lt_succ_self m)).2
  have h0 := runLoop_no_halt { vm with running := true } n rfl h
  have hout := runLoop_lines_out { vm with running := true } n
  unfold TinyVM.run
  rcases hl : TinyVM.runLoop { vm with running := true } n with ⟨vm1, steps, lines, fault⟩
  rw [hl] at h0 hout
  obtain ⟨hv, hsteps, hfault⟩ := h0
  dsimp only at hv hsteps hfault
  subst hv
  subst hsteps
  subst hfault
  refine ⟨hrunning, rfl, ?_, ?_⟩
  · exact List.getLast?_concat _
  · intro f hf
    rcases List.mem_append.mp hf with hh | hh
    · obtain ⟨s, hs⟩ := hout _ hh
      simp at hs
    · simp at hh

/-- Witness for C8: a NOP-filled memory run with a budget of 3 steps. -/
theorem budget_exhaustion_witness :
    (TinyVM.run (TinyVM.init 8) 3).1.running = true ∧
    (TinyVM.run (TinyVM.init 8) 3).1 = stepIter { TinyVM.init 8 with running := true } 3 ∧
    (TinyVM.run (TinyVM.init 8) 3).2.getLast? =
      some (Line.summary 3 (TinyVM.run (TinyVM.init 8) 3).1.opcount) ∧
    (∀ f, Line.crash f ∉ (TinyVM.run (TinyVM.init 8) 3).2) :=
  budget_exhaustion (TinyVM.init 8) 3 (by decide)
